import Mathlib

/-!
# Surface and SliceRenderer

A shallow embedding of `Data/Surface.cpp` (mesh storage, access arbitration and
the lifecycle of the vertex buffer object) and of
`Visualization/SliceRenderer/SliceRenderer.cpp` (slice resolution, kernel
recompilation, bounding box of the slice), followed by theorems about them.

Conventions.
* Member variables keep their C++ names; an object is a structure of its members.
* A member function that mutates the object, or the OpenGL state, takes the old
  state and returns the new one. A function that can throw returns the
  exception or the value together with the state at the point of the throw or
  return, so that mutations made before a throw remain visible.
* `unsigned int` and `int` are 32 bits wide; they are modelled by `Nat` and `Int`
  with the wrap-around written out where the source computes with them.
* The scalar type `float` is a type parameter `F`: the code only copies and
  compares such values.
* An out-of-bounds `operator[]` on a `std::vector` is undefined behaviour; the
  embedding returns `none` there.
-/

namespace fast

/-! ## Common declarations -/

/-- Exceptions thrown by the two translation units, one constructor per
distinct message. -/
inductive Exception
  | surfaceNotInitialized
  | alreadyBeingWrittenTo
  | alreadyBeingAccessed
  | errorSettingGLContext
  | glewInitError
  | notImplementedYet
  | onlySupports3DImages
  | sliceBelowZero
  deriving DecidableEq, Repr

/-- The message carried by each exception, as written at the throw site. -/
def Exception.what : Exception → String
  | .surfaceNotInitialized => "Surface has not been initialized."
  | .alreadyBeingWrittenTo => "Requesting access to an image that is already being written to."
  | .alreadyBeingAccessed => "Trying to get write access to an object that is already being accessed"
  | .errorSettingGLContext => "Error setting GL context"
  | .glewInitError => "GLEW init error"
  | .notImplementedYet => "Not implemented yet!"
  | .onlySupports3DImages => "The SliceRenderer only supports 3D images"
  | .sliceBelowZero => "Slice to render was below 0 in SliceRenderer"

/-- The number of values of an `unsigned int`. -/
def UINT_RANGE : Nat := 2 ^ 32

/-- The class templates `Float<3>` and `Uint<3>`: three components read by
`x()`, `y()` and `z()`. -/
structure Vec3 (α : Type) where
  x : α
  y : α
  z : α
  deriving DecidableEq, Repr

/-- The access mode of a request. -/
inductive accessType
  | ACCESS_READ
  | ACCESS_READ_WRITE
  deriving DecidableEq, Repr

/-! ## OpenGL buffer objects -/

/-- The part of the OpenGL state that `Surface` touches. `buffers` holds the
name and the size in bytes of the data store of every buffer object that is
currently allocated, `nextBuffer` is the next name `glGenBuffers` hands out
(names are not reused), and `deleted` lists the names passed to
`glDeleteBuffers`, oldest first. -/
structure GLState where
  nextBuffer : Nat
  buffers : List (Nat × Nat)
  deleted : List Nat
  deriving DecidableEq, Repr

/-- Models `glGenBuffers(1, &id)`: a name that was not in use is returned and becomes
allocated, with an empty data store. -/
def glGenBuffers (gl : GLState) : Nat × GLState :=
  (gl.nextBuffer,
    { gl with nextBuffer := gl.nextBuffer + 1, buffers := gl.buffers ++ [(gl.nextBuffer, 0)] })

/-- Models `glBindBuffer(GL_ARRAY_BUFFER, id); glBufferData(GL_ARRAY_BUFFER, size, NULL, ..)`:
the data store of buffer `id` gets `size` bytes. -/
def glBufferData (id size : Nat) (gl : GLState) : GLState :=
  { gl with buffers := gl.buffers.map (fun b => if b.1 = id then (b.1, size) else b) }

/-- Models `glDeleteBuffers(1, &id)`: buffer `id` is no longer allocated; the call is
logged. -/
def glDeleteBuffers (id : Nat) (gl : GLState) : GLState :=
  { gl with buffers := gl.buffers.filter (fun b => b.1 ≠ id), deleted := gl.deleted ++ [id] }

/-- What the calls made on the way to `glGenBuffers` report in one particular
request: whether `glXGetCurrentDrawable()` is non-zero, whether `glXMakeCurrent`
succeeds, and whether `glewInit()` returns `GLEW_OK`. -/
structure GLEnv where
  hasCurrentDrawable : Bool
  makeCurrentSucceeds : Bool
  glewInitOk : Bool
  deriving DecidableEq, Repr

/-! ## Surface -/

/-- A vertex of the mesh: `position`, `normal` and the indices of the triangles
that use it. -/
structure SurfaceVertex (F : Type) where
  position : Vec3 F
  normal : Vec3 F
  triangles : List Nat
  deriving DecidableEq, Repr

/-- The data members of `Surface`. -/
structure Surface (F : Type) where
  mVertices : List (SurfaceVertex F)
  mNrOfTriangles : Nat
  mIsInitialized : Bool
  mVBOID : Nat
  mVBOHasData : Bool
  mVBODataIsUpToDate : Bool
  mVBODataIsBeingAccessed : Bool
  mHostHasData : Bool
  mHostDataIsBeingAccessed : Bool
  mSurfaceIsBeingWrittenTo : Bool
  deriving DecidableEq, Repr

/-- The constructor `Surface::Surface()`. It assigns six flags; `mVertices` is
default-constructed empty; `mNrOfTriangles`, `mVBOID` and `mVBODataIsUpToDate`
are left indeterminate and are therefore arguments here. -/
def Surface.new (F : Type) (nrOfTriangles vboID : Nat) (upToDate : Bool) : Surface F :=
  { mVertices := []
    mNrOfTriangles := nrOfTriangles
    mIsInitialized := false
    mVBOID := vboID
    mVBOHasData := false
    mVBODataIsUpToDate := upToDate
    mVBODataIsBeingAccessed := false
    mHostHasData := false
    mHostDataIsBeingAccessed := false
    mSurfaceIsBeingWrittenTo := false }

/-- The member `Surface::freeAll`: deletes the buffer object when `mVBOHasData` is set. No
member of the surface is assigned. -/
def Surface.freeAll {F : Type} (s : Surface F) (gl : GLState) : GLState :=
  if s.mVBOHasData then glDeleteBuffers s.mVBOID gl else gl

/-- The destructor `Surface::~Surface`. -/
def Surface.destroy {F : Type} (s : Surface F) (gl : GLState) : GLState :=
  s.freeAll gl

/-- First loop of `create`: for the indices `i` in the given list, in order,
push a vertex with `vertices[i]` and `normals[i]` and no triangles. -/
def createVertexLoop {F : Type} (vertices normals : List (Vec3 F)) :
    List Nat → List (SurfaceVertex F) → Option (List (SurfaceVertex F))
  | [], mVertices => some mVertices
  | i :: rest, mVertices =>
    match vertices[i]?, normals[i]? with
    | some p, some n =>
      createVertexLoop vertices normals rest
        (mVertices ++ [{ position := p, normal := n, triangles := [] }])
    | _, _ => none

/-- The statement `mVertices[v].triangles.push_back(i)`. -/
def pushTriangle {F : Type} (mVertices : List (SurfaceVertex F)) (v i : Nat) :
    Option (List (SurfaceVertex F)) :=
  if v < mVertices.length then
    some (mVertices.modify (fun sv => { sv with triangles := sv.triangles ++ [i] }) v)
  else none

/-- Second loop of `create`: for the indices `i` in the given list, in order,
push `i` on the triangle list of the vertices `triangles[i].x()`,
`triangles[i].y()` and `triangles[i].z()`. -/
def createTriangleLoop {F : Type} (triangles : List (Vec3 Nat)) :
    List Nat → List (SurfaceVertex F) → Option (List (SurfaceVertex F))
  | [], mVertices => some mVertices
  | i :: rest, mVertices =>
    match triangles[i]? with
    | none => none
    | some t =>
      match pushTriangle mVertices t.x i with
      | none => none
      | some m1 =>
        match pushTriangle m1 t.y i with
        | none => none
        | some m2 =>
          match pushTriangle m2 t.z i with
          | none => none
          | some m3 => createTriangleLoop triangles rest m3

/-- The member `Surface::create(vertices, normals, triangles)`. The two counted loops run
over `0 .. size()-1` of their vector; `mNrOfTriangles` is an `unsigned int`. -/
def Surface.create {F : Type} (vertices normals : List (Vec3 F)) (triangles : List (Vec3 Nat))
    (s : Surface F) (gl : GLState) : Option (Surface F × GLState) :=
  let gl1 := if s.mIsInitialized then s.freeAll gl else gl
  match createVertexLoop vertices normals (List.range vertices.length) s.mVertices with
  | none => none
  | some mV1 =>
    match createTriangleLoop triangles (List.range triangles.length) mV1 with
    | none => none
    | some mV2 =>
      some ({ s with
                mIsInitialized := true
                mVertices := mV2
                mNrOfTriangles := triangles.length % UINT_RANGE }, gl1)

/-- The member `Surface::create(nrOfTriangles)`. -/
def Surface.createCount {F : Type} (nrOfTriangles : Nat) (s : Surface F) (gl : GLState) :
    Surface F × GLState :=
  let gl1 := if s.mIsInitialized then s.freeAll gl else gl
  ({ s with mIsInitialized := true, mNrOfTriangles := nrOfTriangles % UINT_RANGE }, gl1)

/-- The member `Surface::isAnyDataBeingAccessed`. -/
def Surface.isAnyDataBeingAccessed {F : Type} (s : Surface F) : Bool :=
  s.mVBODataIsBeingAccessed || s.mHostDataIsBeingAccessed

/-- A `bool*` that points at one of the access flags of a surface. -/
inductive FlagRef
  | mVBODataIsBeingAccessed
  | mHostDataIsBeingAccessed
  | mSurfaceIsBeingWrittenTo
  deriving DecidableEq, Repr

/-- The object built by `VertexBufferObjectAccess(mVBOID, &flag, &flag2)`: the buffer
name and the two pointers. -/
structure VertexBufferObjectAccess where
  mVBOID : Nat
  mAccessFlag : FlagRef
  mAccessFlag2 : FlagRef
  deriving DecidableEq, Repr

/-- The number of bytes passed to `glBufferData`: `mNrOfTriangles*18` is computed in
`unsigned int`, the product with `sizeof(cl_float)` in `size_t`. -/
def vboByteSize (mNrOfTriangles : Nat) : Nat :=
  (mNrOfTriangles * 18 % UINT_RANGE) * 4

/-- The member `Surface::getVertexBufferObjectAccess(type, device)`. The result pairs the
exception or the token with the surface and the OpenGL state at that point. -/
def Surface.getVertexBufferObjectAccess {F : Type} (type : accessType) (env : GLEnv)
    (s : Surface F) (gl : GLState) :
    Except Exception VertexBufferObjectAccess × Surface F × GLState :=
  if !s.mIsInitialized then (.error .surfaceNotInitialized, s, gl)
  else if s.mSurfaceIsBeingWrittenTo then (.error .alreadyBeingWrittenTo, s, gl)
  else if type = accessType.ACCESS_READ_WRITE ∧ s.isAnyDataBeingAccessed = true then
    (.error .alreadyBeingAccessed, s, gl)
  else
    let s1 : Surface F :=
      if type = accessType.ACCESS_READ_WRITE then { s with mSurfaceIsBeingWrittenTo := true }
      else s
    if !s1.mVBOHasData then
      if !env.hasCurrentDrawable && !env.makeCurrentSucceeds then
        (.error .errorSettingGLContext, s1, gl)
      else if !env.glewInitOk then (.error .glewInitError, s1, gl)
      else
        let (id, gl2) := glGenBuffers gl
        let gl3 := glBufferData id (vboByteSize s1.mNrOfTriangles) gl2
        let s2 : Surface F :=
          { s1 with
              mVBOID := id
              mVBOHasData := true
              mVBODataIsUpToDate := true
              mVBODataIsBeingAccessed := true }
        (.ok ⟨s2.mVBOID, .mVBODataIsBeingAccessed, .mSurfaceIsBeingWrittenTo⟩, s2, gl3)
    else
      let s2 : Surface F := { s1 with mVBODataIsBeingAccessed := true }
      (.ok ⟨s2.mVBOID, .mVBODataIsBeingAccessed, .mSurfaceIsBeingWrittenTo⟩, s2, gl)

/-- The access mode of `getSurfacePointerAccess` is the same enumeration. The member
throws in every case. -/
def Surface.getSurfacePointerAccess {F : Type} (_access : accessType) (s : Surface F) :
    Exception × Surface F :=
  if !s.mIsInitialized then (.surfaceNotInitialized, s) else (.notImplementedYet, s)

/-- Assignment of `false` through a flag pointer. -/
def Surface.clearFlag {F : Type} (s : Surface F) : FlagRef → Surface F
  | .mVBODataIsBeingAccessed => { s with mVBODataIsBeingAccessed := false }
  | .mHostDataIsBeingAccessed => { s with mHostDataIsBeingAccessed := false }
  | .mSurfaceIsBeingWrittenTo => { s with mSurfaceIsBeingWrittenTo := false }

/-- Modelled from the spec: `VertexBufferObjectAccess::release` is not part of the two
translation units. Releasing a token clears the "being accessed" and the
"being written" flag that the token references. -/
def VertexBufferObjectAccess.release {F : Type} (token : VertexBufferObjectAccess)
    (s : Surface F) : Surface F :=
  (s.clearFlag token.mAccessFlag).clearFlag token.mAccessFlag2

/-! ## Sequences of operations on a surface -/

/-- An operation on a surface: one of the two `create` overloads, a request for the
vertex buffer object, or the release of the token at position `k` among the tokens
that were granted and not yet released. -/
inductive SurfaceEvent (F : Type)
  | create (vertices normals : List (Vec3 F)) (triangles : List (Vec3 Nat))
  | createCount (nrOfTriangles : Nat)
  | request (type : accessType) (env : GLEnv)
  | release (k : Nat)

/-- A surface, the OpenGL state, and the tokens granted and not yet released, oldest
first, each with the mode it was requested with. -/
structure SurfaceWorld (F : Type) where
  surface : Surface F
  gl : GLState
  outstanding : List (accessType × VertexBufferObjectAccess)

/-- A freshly constructed surface with no token granted. -/
def SurfaceWorld.initial (F : Type) (nrOfTriangles vboID : Nat) (upToDate : Bool)
    (gl : GLState) : SurfaceWorld F :=
  { surface := Surface.new F nrOfTriangles vboID upToDate, gl := gl, outstanding := [] }

/-- One operation. A request that throws grants no token but keeps the mutations
made before the throw. There is no step where `create` has undefined behaviour
or where the token to release does not exist. -/
def SurfaceWorld.step {F : Type} (w : SurfaceWorld F) : SurfaceEvent F → Option (SurfaceWorld F)
  | .create vertices normals triangles =>
    match w.surface.create vertices normals triangles w.gl with
    | none => none
    | some (s, gl) => some { w with surface := s, gl := gl }
  | .createCount n =>
    let (s, gl) := w.surface.createCount n w.gl
    some { w with surface := s, gl := gl }
  | .request type env =>
    match w.surface.getVertexBufferObjectAccess type env w.gl with
    | (.ok token, s, gl) =>
      some { surface := s, gl := gl, outstanding := w.outstanding ++ [(type, token)] }
    | (.error _, s, gl) => some { w with surface := s, gl := gl }
  | .release k =>
    match w.outstanding[k]? with
    | none => none
    | some (_, token) =>
      some { w with surface := token.release w.surface, outstanding := w.outstanding.eraseIdx k }

/-- A sequence of operations, left to right. -/
def SurfaceWorld.run {F : Type} : SurfaceWorld F → List (SurfaceEvent F) → Option (SurfaceWorld F)
  | w, [] => some w
  | w, ev :: rest =>
    match w.step ev with
    | none => none
    | some w1 => SurfaceWorld.run w1 rest

/-- Whether every release in the sequence happens while the released token is the
only one outstanding. -/
def SurfaceWorld.releasesAlone {F : Type} : SurfaceWorld F → List (SurfaceEvent F) → Bool
  | _, [] => true
  | w, ev :: rest =>
    (match ev with
      | .release _ => decide (w.outstanding.length = 1)
      | _ => true) &&
    (match w.step ev with
      | none => true
      | some w1 => SurfaceWorld.releasesAlone w1 rest)

/-- No read-write token is outstanding together with another token. -/
def SurfaceWorld.WriterExclusive {F : Type} (w : SurfaceWorld F) : Prop :=
  ∀ (i j : Nat) (ti tj : accessType × VertexBufferObjectAccess),
    w.outstanding[i]? = some ti → w.outstanding[j]? = some tj → i ≠ j →
    ti.1 ≠ accessType.ACCESS_READ_WRITE

/-- Invariant behind the arbitration: an outstanding token keeps the accessed flag set,
and an outstanding read-write token keeps the written flag set and is alone. -/
def SurfaceWorld.FlagsCover {F : Type} (w : SurfaceWorld F) : Prop :=
  (w.outstanding ≠ [] → w.surface.mVBODataIsBeingAccessed = true) ∧
  (∀ t ∈ w.outstanding, t.1 = accessType.ACCESS_READ_WRITE →
    w.surface.mSurfaceIsBeingWrittenTo = true ∧ w.outstanding.length = 1)

/-- Whether the operation is a call of one of the `create` overloads. -/
def SurfaceEvent.isCreate {F : Type} : SurfaceEvent F → Bool
  | .create _ _ _ => true
  | .createCount _ => true
  | _ => false

/-- Sum of the lengths of all adjacency lists. -/
def adjacencyTotal {F : Type} (mVertices : List (SurfaceVertex F)) : Nat :=
  (mVertices.map (fun sv => sv.triangles.length)).sum

/-- The triangle at position `i` of the sequence has `v` among its three indices. -/
def references (triangles : List (Vec3 Nat)) (i v : Nat) : Prop :=
  ∃ t, triangles[i]? = some t ∧ (t.x = v ∨ t.y = v ∨ t.z = v)

/-! ## SliceRenderer -/

/-- The enumeration `PlaneType`. -/
inductive PlaneType
  | PLANE_X
  | PLANE_Y
  | PLANE_Z
  deriving DecidableEq, Repr

/-- Modelled from the spec: the enumeration `DataType` is declared outside the two
translation units. The source names `TYPE_FLOAT`, `TYPE_INT8` and `TYPE_INT16`
(floating point and 8 or 16 bit signed integers); every other voxel type is
treated alike, here the two unsigned integer types. -/
inductive DataType
  | TYPE_FLOAT
  | TYPE_UINT8
  | TYPE_INT8
  | TYPE_UINT16
  | TYPE_INT16
  deriving DecidableEq, Repr

/-- What `SliceRenderer` reads from the input `Image`: `getDimensions()`, `getWidth()`,
`getHeight()`, `getDepth()` (each an `unsigned int`) and `getDataType()`. -/
structure Image where
  dimensions : Nat
  width : Nat
  height : Nat
  depth : Nat
  dataType : DataType
  deriving DecidableEq, Repr

/-- The extents of an image fit the type `unsigned int`. -/
def Image.InRange (img : Image) : Prop :=
  img.width < UINT_RANGE ∧ img.height < UINT_RANGE ∧ img.depth < UINT_RANGE

/-- Operations on `float` that the renderer uses: conversion from an integer, and the
default window and level of a data type (`getDefaultIntensityWindow`,
`getDefaultIntensityLevel`, defined in `Utility`). -/
structure FloatOps (F : Type) where
  ofInt : Int → F
  getDefaultIntensityWindow : DataType → F
  getDefaultIntensityLevel : DataType → F

/-- Conversion of an `unsigned int` to `int`. -/
def toInt32 (n : Nat) : Int :=
  if n % UINT_RANGE < 2 ^ 31 then (n % UINT_RANGE : Nat) else (n % UINT_RANGE : Nat) - 2 ^ 32

/-- Conversion of an `int` to `unsigned int`. -/
def toUInt32 (i : Int) : Nat :=
  (i % 2 ^ 32).toNat

/-- The arguments 2 to 5 set on the kernel and the two-dimensional range it is
enqueued over. -/
structure KernelArgs (F : Type) where
  sliceNr : Nat
  level : F
  window : F
  slicePlaneNr : Nat
  rangeWidth : Nat
  rangeHeight : Nat
  deriving DecidableEq, Repr

/-- The OpenGL and OpenCL state that `execute` acts on: the next texture name,
the textures that exist with their extents, the build options of every kernel
built so far (oldest first) and every kernel dispatch (oldest first). -/
structure Device (F : Type) where
  nextTexture : Nat
  textures : List (Nat × Nat × Nat)
  kernelBuilds : List String
  dispatched : List (KernelArgs F)

/-- The data members of `SliceRenderer` (with `mWindow` and `mLevel` of its base
class). `mKernel` holds the build options of the kernel object, if one was built. -/
structure SliceRenderer (F : Type) where
  mImageToRender : Option Image
  mWindow : F
  mLevel : F
  mSliceNr : Int
  mSlicePlane : PlaneType
  mWidth : Nat
  mHeight : Nat
  mScale : F
  mTextureIsCreated : Bool
  mTexture : Nat
  mTypeCLCodeCompiledFor : DataType
  mKernel : Option String
  mIsModified : Bool

/-- The constructor `SliceRenderer::SliceRenderer()`. It assigns `mTextureIsCreated`,
`mIsModified`, `mSlicePlane`, `mSliceNr` and `mScale`; the other members are
arguments. -/
def SliceRenderer.new {F : Type} (ops : FloatOps F) (window level : F) (width height texture : Nat)
    (compiledFor : DataType) : SliceRenderer F :=
  { mImageToRender := none
    mWindow := window
    mLevel := level
    mSliceNr := -1
    mSlicePlane := PlaneType.PLANE_Z
    mWidth := width
    mHeight := height
    mScale := ops.ofInt 1
    mTextureIsCreated := false
    mTexture := texture
    mTypeCLCodeCompiledFor := compiledFor
    mKernel := none
    mIsModified := true }

/-- The member `SliceRenderer::setSliceToRender(unsigned int sliceNr)`. -/
def SliceRenderer.setSliceToRender {F : Type} (sliceNr : Nat) (r : SliceRenderer F) :
    SliceRenderer F :=
  { r with mSliceNr := toInt32 sliceNr, mIsModified := true }

/-- The member `SliceRenderer::setSlicePlane(plane)`. -/
def SliceRenderer.setSlicePlane {F : Type} (plane : PlaneType) (r : SliceRenderer F) :
    SliceRenderer F :=
  { r with mSlicePlane := plane, mIsModified := true }

/-- The expression `e - 1` on `unsigned int`. -/
def usubOne (e : Nat) : Nat :=
  (e + UINT_RANGE - 1) % UINT_RANGE

/-- Lines 50 to 83 of `execute`: the value of the local `sliceNr`, or the exception. -/
def resolveSliceNr (mSliceNr : Int) (mSlicePlane : PlaneType) (img : Image) :
    Except Exception Nat :=
  if mSliceNr = -1 then
    match mSlicePlane with
    | .PLANE_X => .ok (img.width / 2)
    | .PLANE_Y => .ok (img.height / 2)
    | .PLANE_Z => .ok (img.depth / 2)
  else if mSliceNr ≥ 0 then
    let sliceNr := toUInt32 mSliceNr
    match mSlicePlane with
    | .PLANE_X => .ok (if sliceNr ≥ img.width then usubOne img.width else sliceNr)
    | .PLANE_Y => .ok (if sliceNr ≥ img.height then usubOne img.height else sliceNr)
    | .PLANE_Z => .ok (if sliceNr ≥ img.depth then usubOne img.depth else sliceNr)
  else .error .sliceBelowZero

/-- Lines 84 to 101 of `execute`: `slicePlaneNr` and the new `mWidth` and `mHeight`. -/
def resolveExtents (mSlicePlane : PlaneType) (img : Image) : Nat × Nat × Nat :=
  match mSlicePlane with
  | .PLANE_X => (0, img.height, img.depth)
  | .PLANE_Y => (1, img.width, img.depth)
  | .PLANE_Z => (2, img.width, img.height)

/-- The member `SliceRenderer::recompileOpenCLCode(input)`. -/
def SliceRenderer.recompileOpenCLCode {F : Type} (input : Image) (r : SliceRenderer F)
    (d : Device F) : SliceRenderer F × Device F :=
  let recompile : Bool :=
    if !r.mTextureIsCreated then true
    else if r.mTypeCLCodeCompiledFor ≠ input.dataType then true
    else false
  if !recompile then (r, d)
  else
    let buildOptions : String :=
      if input.dataType = DataType.TYPE_FLOAT then "-DTYPE_FLOAT"
      else if input.dataType = DataType.TYPE_INT8 ∨ input.dataType = DataType.TYPE_INT16 then
        "-DTYPE_INT"
      else "-DTYPE_UINT"
    ({ r with mKernel := some buildOptions, mTypeCLCodeCompiledFor := input.dataType },
      { d with kernelBuilds := d.kernelBuilds ++ [buildOptions] })

/-- The member `SliceRenderer::execute()`, with `input` the image that
`getStaticInputData<Image>(0)` returns. The result pairs the exception or the
normal return with the renderer and the device state at that point. -/
def SliceRenderer.execute {F : Type} [DecidableEq F] (ops : FloatOps F) (input : Image)
    (r : SliceRenderer F) (d : Device F) : Except Exception Unit × SliceRenderer F × Device F :=
  let r1 : SliceRenderer F := { r with mImageToRender := some input }
  if input.dimensions ≠ 3 then (.error .onlySupports3DImages, r1, d)
  else
    let window : F :=
      if r1.mWindow = ops.ofInt (-1) then ops.getDefaultIntensityWindow input.dataType
      else r1.mWindow
    let level : F :=
      if r1.mLevel = ops.ofInt (-1) then ops.getDefaultIntensityLevel input.dataType
      else r1.mLevel
    match resolveSliceNr r1.mSliceNr r1.mSlicePlane input with
    | .error e => (.error e, r1, d)
    | .ok sliceNr =>
      let (slicePlaneNr, width, height) := resolveExtents r1.mSlicePlane input
      let r2 : SliceRenderer F :=
        { r1 with mWidth := width, mHeight := height, mSliceNr := toInt32 sliceNr }
      let textures1 :=
        if r2.mTextureIsCreated then d.textures.filter (fun t => t.1 ≠ r2.mTexture)
        else d.textures
      let r3 : SliceRenderer F := { r2 with mTexture := d.nextTexture }
      let d1 : Device F :=
        { d with
            nextTexture := d.nextTexture + 1
            textures := textures1 ++ [(d.nextTexture, r3.mWidth, r3.mHeight)] }
      let (r4, d2) := r3.recompileOpenCLCode input d1
      let d3 : Device F :=
        { d2 with
            dispatched := d2.dispatched ++
              [{ sliceNr := sliceNr, level := level, window := window,
                 slicePlaneNr := slicePlaneNr, rangeWidth := r4.mWidth, rangeHeight := r4.mHeight }] }
      (.ok (), { r4 with mTextureIsCreated := true }, d3)

/-- A `MatrixXf` with 8 rows and 3 columns: the corners of a bounding box. -/
abbrev Corners (F : Type) := Fin 8 → Fin 3 → F

/-- The assignment `corners(i, j) = v`. -/
def Corners.assign {F : Type} (corners : Corners F) (i : Fin 8) (j : Fin 3) (v : F) : Corners F :=
  fun a b => if a = i ∧ b = j then v else corners a b

/-- The loop `for(uint i = 0; i < 8; i++) corners(i, j) = v`. -/
def Corners.assignColumn {F : Type} (corners : Corners F) (j : Fin 3) (v : F) : Corners F :=
  (List.finRange 8).foldl (fun c i => c.assign i j v) corners

/-- Lines 271 to 286 of `getBoundingBox`: the matrix `corners` after the switch, given
the corners of the bounding box of the image. -/
def SliceRenderer.shrinkCorners {F : Type} (ops : FloatOps F) (r : SliceRenderer F)
    (inputCorners : Corners F) : Corners F :=
  match r.mSlicePlane with
  | .PLANE_X => inputCorners.assignColumn 0 (ops.ofInt r.mSliceNr)
  | .PLANE_Y => inputCorners.assignColumn 1 (ops.ofInt r.mSliceNr)
  | .PLANE_Z => inputCorners.assignColumn 2 (ops.ofInt r.mSliceNr)

/-- The member `SliceRenderer::getBoundingBox()`: `inputCorners` are the corners of
`mImageToRender->getBoundingBox()` and `transformed` stands for building a
`BoundingBox` from a corner matrix and applying the scaled scene graph transform
of the image to it. -/
def SliceRenderer.getBoundingBox {F B : Type} (ops : FloatOps F) (r : SliceRenderer F)
    (inputCorners : Corners F) (transformed : Corners F → B) : B :=
  transformed (r.shrinkCorners ops inputCorners)

/-- The four `glVertex3f` calls of `SliceRenderer::draw()`, in order; nothing is drawn
before a texture was created. -/
def SliceRenderer.draw {F : Type} (ops : FloatOps F) (r : SliceRenderer F) : List (Vec3 F) :=
  if !r.mTextureIsCreated then []
  else
    let w := ops.ofInt r.mWidth
    let h := ops.ofInt r.mHeight
    let s := ops.ofInt r.mSliceNr
    let o := ops.ofInt 0
    match r.mSlicePlane with
    | .PLANE_Z => [⟨o, h, s⟩, ⟨w, h, s⟩, ⟨w, o, s⟩, ⟨o, o, s⟩]
    | .PLANE_Y => [⟨o, s, h⟩, ⟨w, s, h⟩, ⟨w, s, o⟩, ⟨o, s, o⟩]
    | .PLANE_X => [⟨s, o, h⟩, ⟨s, w, h⟩, ⟨s, w, o⟩, ⟨s, o, o⟩]

/-- The extent of the image along the axis of the slice plane: the width for `PLANE_X`,
the height for `PLANE_Y`, the depth for `PLANE_Z`. -/
def Image.extent (img : Image) : PlaneType → Nat
  | .PLANE_X => img.width
  | .PLANE_Y => img.height
  | .PLANE_Z => img.depth

/-- The column of the corner matrix that holds the coordinate along the axis of the
slice plane. -/
def PlaneType.column : PlaneType → Fin 3
  | .PLANE_X => 0
  | .PLANE_Y => 1
  | .PLANE_Z => 2

/-- Integers standing in for `float` in the concrete instances: the conversion is the
identity, the default window is 255 and the default level 127 for every type. -/
def intOps : FloatOps Int :=
  { ofInt := id
    getDefaultIntensityWindow := fun _ => 255
    getDefaultIntensityLevel := fun _ => 127 }

/-- A freshly constructed renderer over `intOps` with automatic window and level. -/
def freshRenderer : SliceRenderer Int :=
  SliceRenderer.new intOps (-1) (-1) 0 0 0 DataType.TYPE_FLOAT

/-- A device state with no texture, no kernel built and nothing dispatched. -/
def freshDevice : Device Int :=
  { nextTexture := 1, textures := [], kernelBuilds := [], dispatched := [] }

/-! ## Buffers owned by a surface -/

/-- Every buffer object that is allocated either was allocated in `gl0`, the OpenGL state
at the construction of the surface, or carries the name `mVBOID` while `mVBOHasData`
is set; and `mVBOHasData` is set only on an initialised surface. -/
def SurfaceWorld.OwnsAtMost {F : Type} (gl0 : GLState) (w : SurfaceWorld F) : Prop :=
  (w.surface.mVBOHasData = true → w.surface.mIsInitialized = true) ∧
  (∀ b ∈ w.gl.buffers,
    b ∈ gl0.buffers ∨ (w.surface.mVBOHasData = true ∧ b.1 = w.surface.mVBOID))

/-! ## Mesh storage -/

theorem sum_map_modify_succ {α : Type} (g : α → Nat) (f : α → α) (hf : ∀ a, g (f a) = g a + 1) :
    ∀ (l : List α) (v : Nat), v < l.length →
      ((l.modify f v).map g).sum = (l.map g).sum + 1 := by
  intro l
  induction l with
  | nil => intro v hv; simp at hv
  | cons a l ih =>
    intro v hv
    cases v with
    | zero => simp [List.modify_zero_cons, hf]; omega
    | succ n =>
      have hn : n < l.length := by simpa using hv
      simp [List.modify_succ_cons, ih n hn]; omega

theorem pushTriangle_spec {F : Type} (mV : List (SurfaceVertex F)) (a i : Nat)
    (ha : a < mV.length) :
    ∃ mV1, pushTriangle mV a i = some mV1 ∧ mV1.length = mV.length ∧
      adjacencyTotal mV1 = adjacencyTotal mV + 1 ∧
      ∀ v sv1, mV1[v]? = some sv1 → ∃ sv, mV[v]? = some sv ∧
        sv1.position = sv.position ∧ sv1.normal = sv.normal ∧
        ∀ j, j ∈ sv1.triangles ↔ j ∈ sv.triangles ∨ (j = i ∧ a = v) := by
  refine ⟨mV.modify (fun sv => { sv with triangles := sv.triangles ++ [i] }) a,
    by simp [pushTriangle, ha], by simp, ?_, ?_⟩
  · exact sum_map_modify_succ _ _ (by intro sv; simp) mV a ha
  · intro v sv1 h
    rw [List.getElem?_modify] at h
    cases hv : mV[v]? with
    | none => simp [hv] at h
    | some sv =>
      simp [hv] at h
      refine ⟨sv, rfl, ?_⟩
      by_cases hav : a = v
      · simp [hav] at h
        subst h
        simp [hav]
      · simp [hav] at h
        subst h
        simp [hav]

theorem createTriangleLoop_spec {F : Type} (triangles : List (Vec3 Nat)) :
    ∀ (is : List Nat) (mV : List (SurfaceVertex F)),
      (∀ i ∈ is, ∃ t, triangles[i]? = some t ∧
        t.x < mV.length ∧ t.y < mV.length ∧ t.z < mV.length) →
      ∃ mV', createTriangleLoop triangles is mV = some mV' ∧ mV'.length = mV.length ∧
        adjacencyTotal mV' = adjacencyTotal mV + 3 * is.length ∧
        ∀ v sv', mV'[v]? = some sv' → ∃ sv, mV[v]? = some sv ∧
          sv'.position = sv.position ∧ sv'.normal = sv.normal ∧
          ∀ j, j ∈ sv'.triangles ↔ j ∈ sv.triangles ∨ (j ∈ is ∧ references triangles j v) := by
  intro is
  induction is with
  | nil =>
    intro mV _
    exact ⟨mV, rfl, rfl, by simp, fun v sv' h => ⟨sv', h, rfl, rfl, by simp⟩⟩
  | cons i rest ih =>
    intro mV hall
    obtain ⟨t, ht, hx, hy, hz⟩ := hall i (List.mem_cons_self _ _)
    obtain ⟨m1, e1, l1, a1, p1⟩ := pushTriangle_spec mV t.x i hx
    obtain ⟨m2, e2, l2, a2, p2⟩ := pushTriangle_spec m1 t.y i (by omega)
    obtain ⟨m3, e3, l3, a3, p3⟩ := pushTriangle_spec m2 t.z i (by omega)
    have hrest : ∀ k ∈ rest, ∃ t, triangles[k]? = some t ∧
        t.x < m3.length ∧ t.y < m3.length ∧ t.z < m3.length := by
      intro k hk
      obtain ⟨u, hu, h⟩ := hall k (List.mem_cons_of_mem _ hk)
      exact ⟨u, hu, by omega⟩
    obtain ⟨m4, e4, l4, a4, p4⟩ := ih m3 hrest
    refine ⟨m4, by simp [createTriangleLoop, ht, e1, e2, e3, e4], by omega, ?_, ?_⟩
    · simp only [List.length_cons]; omega
    · intro v sv4 h4
      obtain ⟨sv3, h3, q3, n3, t3⟩ := p4 v sv4 h4
      obtain ⟨sv2, h2, q2, n2, t2⟩ := p3 v sv3 h3
      obtain ⟨sv1, h1, q1, n1, t1⟩ := p2 v sv2 h2
      obtain ⟨sv0, h0, q0, n0, t0⟩ := p1 v sv1 h1
      refine ⟨sv0, h0, by simp [*], by simp [*], ?_⟩
      intro j
      rw [t3, t2, t1, t0]
      have hi : references triangles i v ↔ (t.x = v ∨ t.y = v ∨ t.z = v) := by
        simp [references, ht]
      constructor
      · rintro ((((h | ⟨rfl, h⟩) | ⟨rfl, h⟩) | ⟨rfl, h⟩) | ⟨h, h'⟩)
        · exact Or.inl h
        · exact Or.inr ⟨List.mem_cons_self _ _, hi.2 (Or.inl h)⟩
        · exact Or.inr ⟨List.mem_cons_self _ _, hi.2 (Or.inr (Or.inl h))⟩
        · exact Or.inr ⟨List.mem_cons_self _ _, hi.2 (Or.inr (Or.inr h))⟩
        · exact Or.inr ⟨List.mem_cons_of_mem _ h, h'⟩
      · rintro (h | ⟨h, h'⟩)
        · exact Or.inl (Or.inl (Or.inl (Or.inl h)))
        · rcases List.mem_cons.1 h with rfl | hr
          · rcases hi.1 h' with hx | hy | hz
            · exact Or.inl (Or.inl (Or.inl (Or.inr ⟨rfl, hx⟩)))
            · exact Or.inl (Or.inl (Or.inr ⟨rfl, hy⟩))
            · exact Or.inl (Or.inr ⟨rfl, hz⟩)
          · exact Or.inr ⟨hr, h'⟩

theorem createVertexLoop_spec {F : Type} (vertices normals : List (Vec3 F)) :
    ∀ (is : List Nat) (mV : List (SurfaceVertex F)),
      (∀ i ∈ is, i < vertices.length ∧ i < normals.length) →
      ∃ new : List (SurfaceVertex F),
        createVertexLoop vertices normals is mV = some (mV ++ new) ∧
        new.length = is.length ∧
        ∀ (k : Nat) (sv : SurfaceVertex F), new[k]? = some sv → sv.triangles = [] ∧
          ∃ i, is[k]? = some i ∧ vertices[i]? = some sv.position ∧
            normals[i]? = some sv.normal := by
  intro is
  induction is with
  | nil => intro mV _; exact ⟨[], by simp [createVertexLoop], rfl, by simp⟩
  | cons i rest ih =>
    intro mV hall
    obtain ⟨hv, hn⟩ := hall i (List.mem_cons_self _ _)
    obtain ⟨new, e, l, p⟩ := ih (mV ++ [⟨vertices[i], normals[i], []⟩])
      (fun k hk => hall k (List.mem_cons_of_mem _ hk))
    refine ⟨⟨vertices[i], normals[i], []⟩ :: new, ?_, by simp [l], ?_⟩
    · simp [createVertexLoop, List.getElem?_eq_getElem hv, List.getElem?_eq_getElem hn, e]
    · intro k sv hk
      cases k with
      | zero =>
        simp at hk
        subst hk
        exact ⟨rfl, i, by simp, by simp [List.getElem?_eq_getElem hv],
          by simp [List.getElem?_eq_getElem hn]⟩
      | succ k =>
        simp at hk
        obtain ⟨h1, j, h2, h3⟩ := p k sv hk
        exact ⟨h1, j, by simpa using h2, h3⟩

/-- C1. On a freshly constructed surface, with as many normals as positions and every
triangle index below the number of positions, `create` returns, the adjacency list
of every vertex `v` holds exactly the positions `i` of the triangles that reference
`v`, and the lengths of all adjacency lists add up to three times the number of
triangles. -/
theorem create_adjacency_exact {F : Type} (positions normals : List (Vec3 F))
    (triangles : List (Vec3 Nat)) (nrOfTriangles vboID : Nat) (upToDate : Bool) (gl : GLState)
    (hsize : positions.length = normals.length)
    (hidx : ∀ t ∈ triangles,
      t.x < positions.length ∧ t.y < positions.length ∧ t.z < positions.length) :
    ∃ s gl1,
      (Surface.new F nrOfTriangles vboID upToDate).create positions normals triangles gl
        = some (s, gl1) ∧
      s.mVertices.length = positions.length ∧
      (∀ (v : Nat) (sv : SurfaceVertex F), s.mVertices[v]? = some sv →
        ∀ i, i ∈ sv.triangles ↔ references triangles i v) ∧
      adjacencyTotal s.mVertices = 3 * triangles.length := by
  obtain ⟨new, e1, l1, p1⟩ := createVertexLoop_spec positions normals
    (List.range positions.length) []
    (by intro i hi; rw [List.mem_range] at hi; omega)
  have l1' : new.length = positions.length := by simpa using l1
  have hempty : ∀ sv ∈ new, sv.triangles = [] := by
    intro sv hsv
    obtain ⟨k, hk⟩ := List.getElem?_of_mem hsv
    exact (p1 k sv hk).1
  have htot : adjacencyTotal new = 0 := by
    unfold adjacencyTotal
    apply List.sum_eq_zero
    intro x hx
    obtain ⟨sv, hsv, rfl⟩ := List.mem_map.1 hx
    simp [hempty sv hsv]
  obtain ⟨mV2, e2, l2, a2, p2⟩ := createTriangleLoop_spec triangles
    (List.range triangles.length) ([] ++ new)
    (by
      intro i hi
      rw [List.mem_range] at hi
      refine ⟨triangles[i], List.getElem?_eq_getElem hi, ?_⟩
      simpa [l1'] using hidx _ (List.getElem_mem hi))
  simp only [List.nil_append] at e1 e2 l2 a2 p2
  refine ⟨{ Surface.new F nrOfTriangles vboID upToDate with
              mIsInitialized := true
              mVertices := mV2
              mNrOfTriangles := triangles.length % UINT_RANGE }, gl,
    by simp [Surface.create, Surface.new, e1, e2], ?_, ?_, ?_⟩
  · simpa [l1'] using l2
  · intro v sv hv i
    obtain ⟨sv0, h0, _, _, t0⟩ := p2 v sv hv
    have hmem : sv0 ∈ new := by
      obtain ⟨hlt, rfl⟩ := List.getElem?_eq_some.1 h0
      exact List.getElem_mem hlt
    rw [t0, hempty sv0 hmem]
    constructor
    · rintro (h | ⟨_, h⟩)
      · simp at h
      · exact h
    · intro h
      refine Or.inr ⟨?_, h⟩
      obtain ⟨t, ht, _⟩ := h
      rw [List.mem_range]
      exact (List.getElem?_eq_some.1 ht).1
  · simpa [htot] using a2

/-- Instance of `create_adjacency_exact`: three vertices and the triangles `(0,1,2)` and
`(0,0,1)`. -/
theorem create_adjacency_exact_witness :
    ∃ s gl1,
      (Surface.new Int 7 9 false).create
          [⟨0, 0, 0⟩, ⟨1, 0, 0⟩, ⟨0, 1, 0⟩] [⟨0, 0, 1⟩, ⟨0, 0, 1⟩, ⟨0, 0, 1⟩]
          [⟨0, 1, 2⟩, ⟨0, 0, 1⟩] ⟨1, [], []⟩
        = some (s, gl1) ∧
      s.mVertices.length = 3 ∧
      (∀ (v : Nat) (sv : SurfaceVertex Int), s.mVertices[v]? = some sv →
        ∀ i, i ∈ sv.triangles ↔ references [⟨0, 1, 2⟩, ⟨0, 0, 1⟩] i v) ∧
      adjacencyTotal s.mVertices = 3 * 2 :=
  create_adjacency_exact [⟨0, 0, 0⟩, ⟨1, 0, 0⟩, ⟨0, 1, 0⟩] [⟨0, 0, 1⟩, ⟨0, 0, 1⟩, ⟨0, 0, 1⟩]
    [⟨0, 1, 2⟩, ⟨0, 0, 1⟩] 7 9 false ⟨1, [], []⟩ (by decide) (by decide)

/-! ## Access arbitration -/

theorem create_flags {F : Type} (vertices normals : List (Vec3 F)) (triangles : List (Vec3 Nat))
    (s s1 : Surface F) (gl gl1 : GLState)
    (h : s.create vertices normals triangles gl = some (s1, gl1)) :
    s1.mVBODataIsBeingAccessed = s.mVBODataIsBeingAccessed ∧
    s1.mHostDataIsBeingAccessed = s.mHostDataIsBeingAccessed ∧
    s1.mSurfaceIsBeingWrittenTo = s.mSurfaceIsBeingWrittenTo := by
  cases h1 : createVertexLoop vertices normals (List.range vertices.length) s.mVertices with
  | none => simp [Surface.create, h1] at h
  | some mV1 =>
    cases h2 : createTriangleLoop triangles (List.range triangles.length) mV1 with
    | none => simp [Surface.create, h1, h2] at h
    | some mV2 =>
      simp only [Surface.create, h1, h2, Option.some.injEq, Prod.mk.injEq] at h
      obtain ⟨rfl, _⟩ := h
      exact ⟨rfl, rfl, rfl⟩

theorem request_granted {F : Type} (type : accessType) (env : GLEnv) (s s1 : Surface F)
    (gl gl1 : GLState) (token : VertexBufferObjectAccess)
    (h : s.getVertexBufferObjectAccess type env gl = (.ok token, s1, gl1)) :
    s.mIsInitialized = true ∧ s.mSurfaceIsBeingWrittenTo = false ∧
    (type = accessType.ACCESS_READ_WRITE →
      s.mVBODataIsBeingAccessed = false ∧ s.mHostDataIsBeingAccessed = false) ∧
    s1.mVBODataIsBeingAccessed = true ∧
    s1.mSurfaceIsBeingWrittenTo = decide (type = accessType.ACCESS_READ_WRITE) := by
  unfold Surface.getVertexBufferObjectAccess at h
  simp only [Surface.isAnyDataBeingAccessed] at h
  split_ifs at h <;> simp at h <;> obtain ⟨_, rfl, _⟩ := h <;> simp_all

theorem request_refused {F : Type} (type : accessType) (env : GLEnv) (s s1 : Surface F)
    (gl gl1 : GLState) (e : Exception)
    (h : s.getVertexBufferObjectAccess type env gl = (.error e, s1, gl1)) :
    s1.mVBODataIsBeingAccessed = s.mVBODataIsBeingAccessed ∧
    (s1.mSurfaceIsBeingWrittenTo = s.mSurfaceIsBeingWrittenTo ∨
      (s1.mSurfaceIsBeingWrittenTo = true ∧ s.mVBODataIsBeingAccessed = false)) := by
  unfold Surface.getVertexBufferObjectAccess at h
  simp only [Surface.isAnyDataBeingAccessed] at h
  split_ifs at h <;> simp at h <;> obtain ⟨_, rfl, _⟩ := h <;> simp_all

theorem step_flagsCover {F : Type} (w w1 : SurfaceWorld F) (ev : SurfaceEvent F)
    (hw : w.FlagsCover) (hstep : w.step ev = some w1)
    (hrel : ∀ k, ev = SurfaceEvent.release k → w.outstanding.length = 1) : w1.FlagsCover := by
  obtain ⟨hacc, hwr⟩ := hw
  cases ev with
  | create vertices normals triangles =>
    simp only [SurfaceWorld.step] at hstep
    cases hc : w.surface.create vertices normals triangles w.gl with
    | none => simp [hc] at hstep
    | some p =>
      obtain ⟨s, gl⟩ := p
      simp only [hc, Option.some.injEq] at hstep
      obtain ⟨h1, _, h3⟩ := create_flags _ _ _ _ _ _ _ hc
      subst hstep
      exact ⟨fun h => by simpa [h1] using hacc h, fun t ht hrw => by simpa [h3] using hwr t ht hrw⟩
  | createCount n =>
    simp only [SurfaceWorld.step, Surface.createCount, Option.some.injEq] at hstep
    subst hstep
    exact ⟨hacc, hwr⟩
  | request type env =>
    simp only [SurfaceWorld.step] at hstep
    rcases hr : w.surface.getVertexBufferObjectAccess type env w.gl with ⟨res, s, gl⟩
    cases res with
    | error e =>
      simp only [hr, Option.some.injEq] at hstep
      obtain ⟨h1, h2⟩ := request_refused _ _ _ _ _ _ _ hr
      subst hstep
      refine ⟨fun h => by simpa [h1] using hacc h, fun t ht hrw => ?_⟩
      obtain ⟨h3, h4⟩ := hwr t ht hrw
      refine ⟨?_, h4⟩
      rcases h2 with h2 | ⟨h2, _⟩
      · simpa [h2] using h3
      · exact h2
    | ok token =>
      simp only [hr, Option.some.injEq] at hstep
      obtain ⟨_, h2, h3, h4, h5⟩ := request_granted _ _ _ _ _ _ _ hr
      subst hstep
      have hnorw : ∀ t ∈ w.outstanding, t.1 ≠ accessType.ACCESS_READ_WRITE := by
        intro t ht hrw
        have := (hwr t ht hrw).1
        simp [h2] at this
      refine ⟨fun _ => h4, fun t ht hrw => ?_⟩
      simp only [List.mem_append, List.mem_singleton] at ht
      rcases ht with ht | rfl
      · exact absurd hrw (hnorw t ht)
      · simp only at hrw
        obtain ⟨h6, _⟩ := h3 hrw
        have hnil : w.outstanding = [] := by
          by_contra hne
          have := hacc hne
          simp [h6] at this
        simp [h5, hrw, hnil]
  | release k =>
    have hlen := hrel k rfl
    simp only [SurfaceWorld.step] at hstep
    cases hk : w.outstanding[k]? with
    | none => simp [hk] at hstep
    | some p =>
      simp only [hk, Option.some.injEq] at hstep
      subst hstep
      have hk0 : k = 0 := by
        have := (List.getElem?_eq_some.1 hk).1
        omega
      have hnil : w.outstanding.eraseIdx k = [] := by
        subst hk0
        match ho : w.outstanding, hlen with
        | [x], _ => rfl
      exact ⟨fun h => absurd hnil h, fun t ht => by simp [hnil] at ht⟩

theorem flagsCover_writerExclusive {F : Type} (w : SurfaceWorld F) (hw : w.FlagsCover) :
    w.WriterExclusive := by
  intro i j ti tj hi hj hij hrw
  have hmem : ti ∈ w.outstanding := by
    obtain ⟨hlt, rfl⟩ := List.getElem?_eq_some.1 hi
    exact List.getElem_mem hlt
  have hlen := (hw.2 ti hmem hrw).2
  have h1 := (List.getElem?_eq_some.1 hi).1
  have h2 := (List.getElem?_eq_some.1 hj).1
  omega

theorem run_flagsCover {F : Type} :
    ∀ (evs : List (SurfaceEvent F)) (w w1 : SurfaceWorld F), w.FlagsCover →
      w.run evs = some w1 → w.releasesAlone evs = true → w1.FlagsCover := by
  intro evs
  induction evs with
  | nil =>
    intro w w1 hw hrun _
    simp only [SurfaceWorld.run, Option.some.injEq] at hrun
    exact hrun ▸ hw
  | cons ev rest ih =>
    intro w w1 hw hrun hdisc
    simp only [SurfaceWorld.run] at hrun
    simp only [SurfaceWorld.releasesAlone, Bool.and_eq_true] at hdisc
    cases hs : w.step ev with
    | none => simp [hs] at hrun
    | some w2 =>
      simp only [hs] at hrun hdisc
      refine ih w2 w1 (step_flagsCover w w2 ev hw hs ?_) hrun hdisc.2
      intro k hk
      subst hk
      simpa using hdisc.1

theorem step_uninitialized {F : Type} (w w1 : SurfaceWorld F) (ev : SurfaceEvent F)
    (hw : w.surface.mIsInitialized = false) (hev : ev.isCreate = false)
    (hstep : w.step ev = some w1) : w1.surface.mIsInitialized = false := by
  cases ev with
  | create vertices normals triangles => simp [SurfaceEvent.isCreate] at hev
  | createCount n => simp [SurfaceEvent.isCreate] at hev
  | request type env =>
    simp [SurfaceWorld.step, Surface.getVertexBufferObjectAccess, hw] at hstep
    subst hstep
    exact hw
  | release k =>
    simp only [SurfaceWorld.step] at hstep
    cases hk : w.outstanding[k]? with
    | none => simp [hk] at hstep
    | some p =>
      simp only [hk, Option.some.injEq] at hstep
      subst hstep
      simp only [VertexBufferObjectAccess.release]
      cases p.2.mAccessFlag <;> cases p.2.mAccessFlag2 <;> simpa [Surface.clearFlag] using hw

theorem run_uninitialized {F : Type} :
    ∀ (evs : List (SurfaceEvent F)) (w w1 : SurfaceWorld F),
      w.surface.mIsInitialized = false → (∀ ev ∈ evs, ev.isCreate = false) →
      w.run evs = some w1 → w1.surface.mIsInitialized = false := by
  intro evs
  induction evs with
  | nil =>
    intro w w1 hw _ hrun
    simp only [SurfaceWorld.run, Option.some.injEq] at hrun
    exact hrun ▸ hw
  | cons ev rest ih =>
    intro w w1 hw hall hrun
    simp only [SurfaceWorld.run] at hrun
    cases hs : w.step ev with
    | none => simp [hs] at hrun
    | some w2 =>
      simp only [hs] at hrun
      exact ih w2 w1
        (step_uninitialized w w2 ev hw (hall ev (List.mem_cons_self _ _)) hs)
        (fun e he => hall e (List.mem_cons_of_mem _ he)) hrun

/-- C2, as stated, fails: after `create`, two read requests are granted, the first
token is released (which clears both flags), and a read-write request is then
granted while the second read token is still outstanding. -/
theorem writer_granted_beside_reader :
    ∃ w : SurfaceWorld Unit,
      (SurfaceWorld.initial Unit 0 0 false ⟨1, [], []⟩).run
        [.create [] [] [],
         .request .ACCESS_READ ⟨true, true, true⟩,
         .request .ACCESS_READ ⟨true, true, true⟩,
         .release 0,
         .request .ACCESS_READ_WRITE ⟨true, true, true⟩] = some w ∧
      w.outstanding =
        [(.ACCESS_READ, ⟨1, .mVBODataIsBeingAccessed, .mSurfaceIsBeingWrittenTo⟩),
         (.ACCESS_READ_WRITE, ⟨1, .mVBODataIsBeingAccessed, .mSurfaceIsBeingWrittenTo⟩)] ∧
      ¬ w.WriterExclusive := by
  refine ⟨_, rfl, rfl, ?_⟩
  intro h
  exact h 1 0 _ _ rfl rfl (by decide) rfl

/-- C2, amended. In every state reached from a freshly constructed surface by a sequence
of `create` calls, read or read-write requests and releases in which no token is
released while another token is outstanding, a read-write token that is outstanding
is the only outstanding token. -/
theorem writer_exclusive_when_released_alone {F : Type} (nrOfTriangles vboID : Nat)
    (upToDate : Bool) (gl : GLState) (evs : List (SurfaceEvent F)) (w : SurfaceWorld F)
    (hrun : (SurfaceWorld.initial F nrOfTriangles vboID upToDate gl).run evs = some w)
    (halone : (SurfaceWorld.initial F nrOfTriangles vboID upToDate gl).releasesAlone evs = true) :
    w.WriterExclusive := by
  apply flagsCover_writerExclusive
  refine run_flagsCover evs _ w ?_ hrun halone
  exact ⟨fun h => absurd rfl h, fun t ht => by simp [SurfaceWorld.initial] at ht⟩

/-- Instance of `writer_exclusive_when_released_alone`: a read token is granted, a read-write
request is refused, the read token is released, a read-write token is granted and
a read request is refused. -/
theorem writer_exclusive_when_released_alone_witness :
    ∃ w : SurfaceWorld Unit,
      (SurfaceWorld.initial Unit 0 0 false ⟨1, [], []⟩).run
        [.create [] [] [],
         .request .ACCESS_READ ⟨true, true, true⟩,
         .request .ACCESS_READ_WRITE ⟨true, true, true⟩,
         .release 0,
         .request .ACCESS_READ_WRITE ⟨true, true, true⟩,
         .request .ACCESS_READ ⟨true, true, true⟩] = some w ∧
      (SurfaceWorld.initial Unit 0 0 false ⟨1, [], []⟩).releasesAlone
        [.create [] [] [],
         .request .ACCESS_READ ⟨true, true, true⟩,
         .request .ACCESS_READ_WRITE ⟨true, true, true⟩,
         .release 0,
         .request .ACCESS_READ_WRITE ⟨true, true, true⟩,
         .request .ACCESS_READ ⟨true, true, true⟩] = true ∧
      w.WriterExclusive := by
  refine ⟨_, rfl, rfl, ?_⟩
  exact writer_exclusive_when_released_alone 0 0 false ⟨1, [], []⟩
    [.create [] [] [],
     .request .ACCESS_READ ⟨true, true, true⟩,
     .request .ACCESS_READ_WRITE ⟨true, true, true⟩,
     .release 0,
     .request .ACCESS_READ_WRITE ⟨true, true, true⟩,
     .request .ACCESS_READ ⟨true, true, true⟩] _ rfl rfl

/-- C3. On an initialised surface with no access outstanding, once a read-write request is
granted, a second read-write request is refused with the exception for a write in
progress, whatever the OpenGL calls report; after the token is released the
read-write request is granted again, with the same buffer name. -/
theorem read_write_refused_until_released {F : Type} (s s1 : Surface F) (gl gl1 : GLState)
    (env : GLEnv) (token : VertexBufferObjectAccess)
    (hinit : s.mIsInitialized = true)
    (_hwritten : s.mSurfaceIsBeingWrittenTo = false)
    (_haccessed : s.mVBODataIsBeingAccessed = false)
    (hhost : s.mHostDataIsBeingAccessed = false)
    (hfirst : s.getVertexBufferObjectAccess .ACCESS_READ_WRITE env gl = (.ok token, s1, gl1)) :
    (∀ (env2 : GLEnv) (gl2 : GLState),
      s1.getVertexBufferObjectAccess .ACCESS_READ_WRITE env2 gl2
        = (.error .alreadyBeingWrittenTo, s1, gl2)) ∧
    (∀ (env3 : GLEnv) (gl3 : GLState),
      (token.release s1).getVertexBufferObjectAccess .ACCESS_READ_WRITE env3 gl3
        = (.ok token, s1, gl3)) := by
  unfold Surface.getVertexBufferObjectAccess at hfirst
  simp only [Surface.isAnyDataBeingAccessed] at hfirst
  split_ifs at hfirst <;> simp at hfirst <;> obtain ⟨rfl, rfl, _⟩ := hfirst <;>
    simp_all [Surface.getVertexBufferObjectAccess, VertexBufferObjectAccess.release,
      Surface.clearFlag, Surface.isAnyDataBeingAccessed]

/-- Instance of `read_write_refused_until_released`: a surface created for two triangles. -/
theorem read_write_refused_until_released_witness :
    ∃ (token : VertexBufferObjectAccess) (s1 : Surface Unit) (gl1 : GLState),
      ((Surface.new Unit 0 0 false).createCount 2 ⟨1, [], []⟩).1.getVertexBufferObjectAccess
        .ACCESS_READ_WRITE ⟨true, true, true⟩ ⟨1, [], []⟩ = (.ok token, s1, gl1) ∧
      (∀ (env2 : GLEnv) (gl2 : GLState),
        s1.getVertexBufferObjectAccess .ACCESS_READ_WRITE env2 gl2
          = (.error .alreadyBeingWrittenTo, s1, gl2)) ∧
      (∀ (env3 : GLEnv) (gl3 : GLState),
        (token.release s1).getVertexBufferObjectAccess .ACCESS_READ_WRITE env3 gl3
          = (.ok token, s1, gl3)) := by
  refine ⟨_, _, _, rfl, ?_⟩
  exact read_write_refused_until_released
    ((Surface.new Unit 0 0 false).createCount 2 ⟨1, [], []⟩).1 _ ⟨1, [], []⟩ _
    ⟨true, true, true⟩ _ rfl rfl rfl rfl rfl

/-- C4. On a surface reached from construction without a call of `create`, a request for
the vertex buffer object and a request for the surface pointer, in either access
mode, throw "Surface has not been initialized." and leave the surface and the
OpenGL state as they were. -/
theorem access_before_create_refused {F : Type} (nrOfTriangles vboID : Nat) (upToDate : Bool)
    (gl0 : GLState) (evs : List (SurfaceEvent F)) (w : SurfaceWorld F)
    (hrun : (SurfaceWorld.initial F nrOfTriangles vboID upToDate gl0).run evs = some w)
    (hnocreate : ∀ ev ∈ evs, ev.isCreate = false)
    (type : accessType) (env : GLEnv) (gl : GLState) :
    w.surface.getVertexBufferObjectAccess type env gl
      = (.error .surfaceNotInitialized, w.surface, gl) ∧
    w.surface.getSurfacePointerAccess type = (.surfaceNotInitialized, w.surface) ∧
    Exception.surfaceNotInitialized.what = "Surface has not been initialized." := by
  have h := run_uninitialized evs _ w rfl hnocreate hrun
  simp [Surface.getVertexBufferObjectAccess, Surface.getSurfacePointerAccess, h,
    Exception.what]

/-- Instance of `access_before_create_refused`: the freshly constructed surface after one
refused request. -/
theorem access_before_create_refused_witness :
    ∃ w : SurfaceWorld Unit,
      (SurfaceWorld.initial Unit 0 0 false ⟨1, [], []⟩).run
        [.request .ACCESS_READ ⟨true, true, true⟩] = some w ∧
      w.surface.getVertexBufferObjectAccess .ACCESS_READ_WRITE ⟨true, true, true⟩ ⟨1, [], []⟩
        = (.error .surfaceNotInitialized, w.surface, ⟨1, [], []⟩) ∧
      w.surface.getSurfacePointerAccess .ACCESS_READ_WRITE
        = (.surfaceNotInitialized, w.surface) ∧
      Exception.surfaceNotInitialized.what = "Surface has not been initialized." := by
  refine ⟨_, rfl, ?_⟩
  exact access_before_create_refused 0 0 false ⟨1, [], []⟩
    [.request .ACCESS_READ ⟨true, true, true⟩] _ rfl (by simp [SurfaceEvent.isCreate])
    .ACCESS_READ_WRITE ⟨true, true, true⟩ ⟨1, [], []⟩

/-! ## Slice resolution -/

theorem toUInt32_of_nonneg (n : Int) (h0 : 0 ≤ n) (h1 : n < 2 ^ 31) :
    toUInt32 n = n.toNat := by
  unfold toUInt32
  rw [Int.emod_eq_of_lt h0 (by omega)]

theorem usubOne_of_pos (e : Nat) (h1 : 1 ≤ e) (h2 : e < UINT_RANGE) : usubOne e = e - 1 := by
  unfold usubOne UINT_RANGE at *
  omega

theorem resolveSliceNr_spec (n : Int) (plane : PlaneType) (img : Image)
    (hlo : -1 ≤ n) (hhi : n < 2 ^ 31) :
    resolveSliceNr n plane img = .ok
      (if n = -1 then img.extent plane / 2
       else if n < img.extent plane then n.toNat
       else usubOne (img.extent plane)) := by
  unfold resolveSliceNr
  by_cases h : n = -1
  · subst h
    cases plane <;> simp [Image.extent]
  · have h0 : 0 ≤ n := by omega
    have hu := toUInt32_of_nonneg n h0 hhi
    have key : ∀ e : Nat,
        (if toUInt32 n ≥ e then usubOne e else toUInt32 n)
          = (if n < (e : Int) then n.toNat else usubOne e) := by
      intro e
      rw [hu]
      by_cases hlt : n < (e : Int)
      · have h1 : ¬ (n.toNat ≥ e) := by omega
        rw [if_neg h1, if_pos hlt]
      · have h1 : n.toNat ≥ e := by omega
        rw [if_pos h1, if_neg hlt]
    rw [if_neg h, if_neg h, if_pos h0]
    cases plane <;> simp only [Image.extent] <;> rw [key]

theorem recompile_fields {F : Type} (input : Image) (r : SliceRenderer F) (d : Device F) :
    (r.recompileOpenCLCode input d).1.mWidth = r.mWidth ∧
    (r.recompileOpenCLCode input d).1.mHeight = r.mHeight ∧
    (r.recompileOpenCLCode input d).1.mSliceNr = r.mSliceNr ∧
    (r.recompileOpenCLCode input d).1.mSlicePlane = r.mSlicePlane ∧
    (r.recompileOpenCLCode input d).2.dispatched = d.dispatched := by
  unfold SliceRenderer.recompileOpenCLCode
  split_ifs <;> simp

theorem execute_of_resolved {F : Type} [DecidableEq F] (ops : FloatOps F) (img : Image)
    (r : SliceRenderer F) (d : Device F) (k : Nat) (h3 : img.dimensions = 3)
    (hk : resolveSliceNr r.mSliceNr r.mSlicePlane img = .ok k) :
    ∃ (r1 : SliceRenderer F) (d1 : Device F) (args : KernelArgs F),
      r.execute ops img d = (.ok (), r1, d1) ∧
      d1.dispatched = d.dispatched ++ [args] ∧ args.sliceNr = k ∧
      args.slicePlaneNr = (resolveExtents r.mSlicePlane img).1 ∧
      r1.mWidth = (resolveExtents r.mSlicePlane img).2.1 ∧
      r1.mHeight = (resolveExtents r.mSlicePlane img).2.2 ∧
      args.rangeWidth = r1.mWidth ∧ args.rangeHeight = r1.mHeight ∧
      r1.mSliceNr = toInt32 k ∧ r1.mSlicePlane = r.mSlicePlane := by
  simp only [SliceRenderer.execute, h3, hk, ne_eq, not_true_eq_false, if_false]
  refine ⟨_, _, ?args, rfl, ?_, ?_⟩
  case args =>
    exact
      { sliceNr := k
        level := if r.mLevel = ops.ofInt (-1) then ops.getDefaultIntensityLevel img.dataType
          else r.mLevel
        window := if r.mWindow = ops.ofInt (-1) then ops.getDefaultIntensityWindow img.dataType
          else r.mWindow
        slicePlaneNr := (resolveExtents r.mSlicePlane img).1
        rangeWidth := (resolveExtents r.mSlicePlane img).2.1
        rangeHeight := (resolveExtents r.mSlicePlane img).2.2 }
  · simp [recompile_fields]
  · simp [recompile_fields]

theorem execute_ok_inv {F : Type} [DecidableEq F] (ops : FloatOps F) (img : Image)
    (r r1 : SliceRenderer F) (d d1 : Device F)
    (h : r.execute ops img d = (.ok (), r1, d1)) :
    img.dimensions = 3 ∧ ∃ k, resolveSliceNr r.mSliceNr r.mSlicePlane img = .ok k := by
  by_cases h3 : img.dimensions = 3
  · refine ⟨h3, ?_⟩
    cases hk : resolveSliceNr r.mSliceNr r.mSlicePlane img with
    | ok k => exact ⟨k, rfl⟩
    | error e => simp [SliceRenderer.execute, h3, hk] at h
  · simp [SliceRenderer.execute, h3] at h

theorem execute_kernel {F : Type} [DecidableEq F] (ops : FloatOps F) (img : Image)
    (r r1 : SliceRenderer F) (d d1 : Device F)
    (h : r.execute ops img d = (.ok (), r1, d1)) :
    r1.mTextureIsCreated = true ∧ r1.mTypeCLCodeCompiledFor = img.dataType ∧
    (r.mTextureIsCreated = true → r.mTypeCLCodeCompiledFor = img.dataType →
      d1.kernelBuilds = d.kernelBuilds) ∧
    (r.mTextureIsCreated = false ∨ r.mTypeCLCodeCompiledFor ≠ img.dataType →
      d1.kernelBuilds.length = d.kernelBuilds.length + 1) := by
  obtain ⟨h3, k, hk⟩ := execute_ok_inv ops img r r1 d d1 h
  simp only [SliceRenderer.execute, h3, hk, ne_eq, not_true_eq_false, if_false,
    Prod.mk.injEq, true_and] at h
  obtain ⟨rfl, rfl⟩ := h
  unfold SliceRenderer.recompileOpenCLCode
  cases hc : r.mTextureIsCreated <;> by_cases ht : r.mTypeCLCodeCompiledFor = img.dataType <;>
    simp [hc, ht]

/-- C5. For a three-dimensional image and a stored slice index that is the sentinel `-1`
or a non-negative `int`, `execute` returns normally and passes to the kernel the
slice index `E / 2` for the sentinel, the stored index `n` when `n < E`, and
otherwise `E - 1` as computed in `unsigned int` (which is `E - 1` whenever
`1 ≤ E`), where `E` is the extent of the image along the slice axis. -/
theorem execute_resolves_slice {F : Type} [DecidableEq F] (ops : FloatOps F) (img : Image)
    (r : SliceRenderer F) (d : Device F)
    (h3 : img.dimensions = 3) (hrange : img.InRange)
    (hlo : -1 ≤ r.mSliceNr) (hhi : r.mSliceNr < 2 ^ 31) :
    ∃ (r1 : SliceRenderer F) (d1 : Device F) (args : KernelArgs F),
      r.execute ops img d = (.ok (), r1, d1) ∧
      d1.dispatched = d.dispatched ++ [args] ∧
      args.sliceNr =
        (if r.mSliceNr = -1 then img.extent r.mSlicePlane / 2
         else if r.mSliceNr < img.extent r.mSlicePlane then r.mSliceNr.toNat
         else usubOne (img.extent r.mSlicePlane)) ∧
      (1 ≤ img.extent r.mSlicePlane →
        usubOne (img.extent r.mSlicePlane) = img.extent r.mSlicePlane - 1) := by
  obtain ⟨r1, d1, args, he, hd, hs, _⟩ := execute_of_resolved ops img r d _ h3
    (resolveSliceNr_spec r.mSliceNr r.mSlicePlane img hlo hhi)
  refine ⟨r1, d1, args, he, hd, hs, fun h1 => usubOne_of_pos _ h1 ?_⟩
  obtain ⟨hw, hh, hd⟩ := hrange
  cases r.mSlicePlane <;> simpa [Image.extent]

/-- Instance of `execute_resolves_slice`: depth 10 on axis Z with the stored index 15, which
resolves to 9. -/
theorem execute_resolves_slice_witness :
    ∃ (r1 : SliceRenderer Int) (d1 : Device Int) (args : KernelArgs Int),
      (freshRenderer.setSliceToRender 15).execute intOps ⟨3, 4, 5, 10, .TYPE_UINT8⟩ freshDevice
        = (.ok (), r1, d1) ∧
      d1.dispatched = freshDevice.dispatched ++ [args] ∧
      args.sliceNr = 9 ∧ (1 ≤ 10 → usubOne 10 = 10 - 1) := by
  have h := execute_resolves_slice intOps ⟨3, 4, 5, 10, .TYPE_UINT8⟩
    (freshRenderer.setSliceToRender 15) freshDevice rfl
    (by simp [Image.InRange, UINT_RANGE]) (by decide) (by decide)
  obtain ⟨r1, d1, args, h1, h2, h3, h4⟩ := h
  exact ⟨r1, d1, args, h1, h2, by rw [h3]; decide, h4⟩

theorem toInt32_toUInt32 (n : Int) (hlo : -2 ^ 31 ≤ n) (hhi : n < 2 ^ 31) :
    toInt32 (toUInt32 n) = n := by
  unfold toInt32 toUInt32 UINT_RANGE
  have hm : (n % 2 ^ 32).toNat % 2 ^ 32 = (n % 2 ^ 32).toNat := by
    apply Nat.mod_eq_of_lt
    omega
  rw [hm]
  split_ifs with h <;> omega

/-- C6, as stated, fails for the index `-1`: the argument `-1` of `setSliceToRender` is stored
as `-1`, which is the sentinel, and `execute` on a volume of depth 10 on axis Z
returns normally with the slice index 5 passed to the kernel. -/
theorem explicit_minus_one_renders_middle_slice :
    (freshRenderer.setSliceToRender (toUInt32 (-1))).mSliceNr = -1 ∧
    ((freshRenderer.setSliceToRender (toUInt32 (-1))).execute intOps
        ⟨3, 4, 5, 10, .TYPE_UINT8⟩ freshDevice).1 = .ok () ∧
    ((freshRenderer.setSliceToRender (toUInt32 (-1))).execute intOps
        ⟨3, 4, 5, 10, .TYPE_UINT8⟩ freshDevice).2.2.dispatched
      = [{ sliceNr := 5, level := 127, window := 255, slicePlaneNr := 2,
           rangeWidth := 4, rangeHeight := 5 }] := by
  exact ⟨rfl, rfl, rfl⟩

/-- C6, amended. For a three-dimensional image and every slice axis, when the caller passed
to `setSliceToRender` a negative `int` other than `-1`, `execute` throws "Slice to
render was below 0 in SliceRenderer"; the stored slice index and the output extents
keep their values, and nothing is built or dispatched. -/
theorem execute_refuses_negative_slice {F : Type} [DecidableEq F] (ops : FloatOps F)
    (img : Image) (r : SliceRenderer F) (d : Device F) (n : Int)
    (h3 : img.dimensions = 3) (hlo : -2 ^ 31 ≤ n) (hn : n ≤ -2) :
    (r.setSliceToRender (toUInt32 n)).execute ops img d
      = (.error .sliceBelowZero,
          { r with mSliceNr := n, mIsModified := true, mImageToRender := some img }, d) ∧
    Exception.sliceBelowZero.what = "Slice to render was below 0 in SliceRenderer" := by
  have hs : toInt32 (toUInt32 n) = n := toInt32_toUInt32 n hlo (by omega)
  have h1 : ¬ n = -1 := by omega
  have h2 : ¬ n ≥ 0 := by omega
  simp [SliceRenderer.execute, SliceRenderer.setSliceToRender, h3, hs, resolveSliceNr, h1, h2,
    Exception.what]

/-- Instance of `execute_refuses_negative_slice`: the index `-2` on a volume of depth 10. -/
theorem execute_refuses_negative_slice_witness :
    (freshRenderer.setSliceToRender (toUInt32 (-2))).execute intOps
        ⟨3, 4, 5, 10, .TYPE_UINT8⟩ freshDevice
      = (.error .sliceBelowZero,
          { freshRenderer with
              mSliceNr := -2, mIsModified := true,
              mImageToRender := some ⟨3, 4, 5, 10, .TYPE_UINT8⟩ }, freshDevice) ∧
    Exception.sliceBelowZero.what = "Slice to render was below 0 in SliceRenderer" :=
  execute_refuses_negative_slice intOps ⟨3, 4, 5, 10, .TYPE_UINT8⟩ freshRenderer freshDevice
    (-2) rfl (by decide) (by decide)

/-- C7. When `execute` returns normally, axis X gives the output extents
`(mWidth, mHeight) = (height, depth)` and the plane number 0, axis Y gives
`(width, depth)` and 1, axis Z gives `(width, height)` and 2; the plane number is the
one passed to the kernel, which is enqueued over `mWidth` by `mHeight`. -/
theorem execute_extents {F : Type} [DecidableEq F] (ops : FloatOps F) (img : Image)
    (r r1 : SliceRenderer F) (d d1 : Device F)
    (h : r.execute ops img d = (.ok (), r1, d1)) :
    ∃ args : KernelArgs F,
      d1.dispatched = d.dispatched ++ [args] ∧
      args.rangeWidth = r1.mWidth ∧ args.rangeHeight = r1.mHeight ∧
      (r1.mWidth, r1.mHeight, args.slicePlaneNr) =
        (match r.mSlicePlane with
          | .PLANE_X => (img.height, img.depth, 0)
          | .PLANE_Y => (img.width, img.depth, 1)
          | .PLANE_Z => (img.width, img.height, 2)) := by
  obtain ⟨h3, k, hk⟩ := execute_ok_inv ops img r r1 d d1 h
  obtain ⟨r1', d1', args, he, hd, _, hp, hw, hh, hrw, hrh, _⟩ :=
    execute_of_resolved ops img r d k h3 hk
  rw [h] at he
  simp only [Prod.mk.injEq, true_and] at he
  obtain ⟨rfl, rfl⟩ := he
  refine ⟨args, hd, hrw, hrh, ?_⟩
  rw [hw, hh, hp]
  cases r.mSlicePlane <;> rfl

/-- Instance of `execute_extents`: width 4, height 5 and depth 6 on axis X give the extents
`(5, 6)` and the plane number 0. -/
theorem execute_extents_witness :
    ∃ (r1 : SliceRenderer Int) (d1 : Device Int) (args : KernelArgs Int),
      (freshRenderer.setSlicePlane .PLANE_X).execute intOps ⟨3, 4, 5, 6, .TYPE_UINT8⟩ freshDevice
        = (.ok (), r1, d1) ∧
      d1.dispatched = freshDevice.dispatched ++ [args] ∧
      args.rangeWidth = r1.mWidth ∧ args.rangeHeight = r1.mHeight ∧
      (r1.mWidth, r1.mHeight, args.slicePlaneNr) = (5, 6, 0) := by
  obtain ⟨r1, d1, h⟩ : ∃ (r1 : SliceRenderer Int) (d1 : Device Int),
      (freshRenderer.setSlicePlane .PLANE_X).execute intOps ⟨3, 4, 5, 6, .TYPE_UINT8⟩ freshDevice
        = (.ok (), r1, d1) := ⟨_, _, rfl⟩
  obtain ⟨args, h1, h2, h3, h4⟩ := execute_extents intOps ⟨3, 4, 5, 6, .TYPE_UINT8⟩
    (freshRenderer.setSlicePlane .PLANE_X) r1 freshDevice d1 h
  exact ⟨r1, d1, args, h, h1, h2, h3, h4⟩

/-- C8. Starting from a renderer that has not created a texture yet (as after construction),
of two successive normal returns of `execute` on images of the same data type the
first builds the kernel once and the second builds none; a following normal return
of `execute` on an image of another data type builds the kernel once more, and
`mTypeCLCodeCompiledFor` is then the data type of that image. -/
theorem kernel_built_once_per_type {F : Type} [DecidableEq F] (ops : FloatOps F)
    (img1 img2 img3 : Image) (r0 r1 r2 r3 : SliceRenderer F) (d0 d1 d2 d3 : Device F)
    (hfresh : r0.mTextureIsCreated = false)
    (h1 : r0.execute ops img1 d0 = (.ok (), r1, d1))
    (h2 : r1.execute ops img2 d1 = (.ok (), r2, d2))
    (hsame : img2.dataType = img1.dataType)
    (h3 : r2.execute ops img3 d2 = (.ok (), r3, d3))
    (hdiff : img3.dataType ≠ img1.dataType) :
    d1.kernelBuilds.length = d0.kernelBuilds.length + 1 ∧
    d2.kernelBuilds = d1.kernelBuilds ∧
    d3.kernelBuilds.length = d2.kernelBuilds.length + 1 ∧
    r3.mTypeCLCodeCompiledFor = img3.dataType := by
  obtain ⟨t1, c1, _, b1⟩ := execute_kernel ops img1 r0 r1 d0 d1 h1
  obtain ⟨t2, c2, s2, _⟩ := execute_kernel ops img2 r1 r2 d1 d2 h2
  obtain ⟨_, c3, _, b3⟩ := execute_kernel ops img3 r2 r3 d2 d3 h3
  refine ⟨b1 (Or.inl hfresh), s2 t1 (by rw [c1, hsame]), b3 (Or.inr ?_), c3⟩
  rw [c2, hsame]
  exact fun h => hdiff h.symm

/-- Instance of `kernel_built_once_per_type`: a fresh renderer, twice a volume of unsigned
8 bit voxels, then a volume of floating point voxels. -/
theorem kernel_built_once_per_type_witness :
    ∃ (r1 r2 r3 : SliceRenderer Int) (d1 d2 d3 : Device Int),
      freshRenderer.execute intOps ⟨3, 4, 5, 6, .TYPE_UINT8⟩ freshDevice = (.ok (), r1, d1) ∧
      r1.execute intOps ⟨3, 4, 5, 6, .TYPE_UINT8⟩ d1 = (.ok (), r2, d2) ∧
      r2.execute intOps ⟨3, 4, 5, 6, .TYPE_FLOAT⟩ d2 = (.ok (), r3, d3) ∧
      d1.kernelBuilds.length = freshDevice.kernelBuilds.length + 1 ∧
      d2.kernelBuilds = d1.kernelBuilds ∧
      d3.kernelBuilds.length = d2.kernelBuilds.length + 1 ∧
      r3.mTypeCLCodeCompiledFor = DataType.TYPE_FLOAT := by
  refine ⟨_, _, _, _, _, _, rfl, rfl, rfl, ?_⟩
  exact kernel_built_once_per_type intOps ⟨3, 4, 5, 6, .TYPE_UINT8⟩ ⟨3, 4, 5, 6, .TYPE_UINT8⟩
    ⟨3, 4, 5, 6, .TYPE_FLOAT⟩ freshRenderer _ _ _ freshDevice _ _ _ rfl rfl rfl rfl rfl
    (by decide)

/-! ## Bounding box of the slice -/

theorem foldl_assign_apply {F : Type} (j : Fin 3) (v : F) (a : Fin 8) (b : Fin 3) :
    ∀ (l : List (Fin 8)) (c : Corners F),
      (l.foldl (fun c i => c.assign i j v) c) a b = if a ∈ l ∧ b = j then v else c a b := by
  intro l
  induction l with
  | nil => intro c; simp
  | cons i rest ih =>
    intro c
    rw [List.foldl_cons, ih]
    by_cases hb : b = j
    · by_cases hr : a ∈ rest
      · simp [hr, hb]
      · by_cases hi : a = i
        · simp [hb, hi, Corners.assign]
        · simp [hr, hb, hi, Corners.assign]
    · simp [hb, Corners.assign]

theorem assignColumn_apply {F : Type} (corners : Corners F) (j : Fin 3) (v : F) (a : Fin 8)
    (b : Fin 3) : corners.assignColumn j v a b = if b = j then v else corners a b := by
  unfold Corners.assignColumn
  rw [foldl_assign_apply]
  simp [List.mem_finRange]

/-- C9. The corner matrix that `getBoundingBox` hands to the transformation has, in each of
its 8 rows, the stored slice index (converted to the scalar type of the matrix) in
the column of the slice axis, and in the other two columns the entries of the
corner matrix of the bounding box of the image. -/
theorem getBoundingBox_corners {F B : Type} (ops : FloatOps F) (r : SliceRenderer F)
    (inputCorners : Corners F) (transformed : Corners F → B) :
    r.getBoundingBox ops inputCorners transformed
      = transformed (r.shrinkCorners ops inputCorners) ∧
    ∀ (i : Fin 8) (j : Fin 3),
      r.shrinkCorners ops inputCorners i j =
        if j = r.mSlicePlane.column then ops.ofInt r.mSliceNr else inputCorners i j := by
  refine ⟨rfl, fun i j => ?_⟩
  unfold SliceRenderer.shrinkCorners
  cases r.mSlicePlane <;> simp only [assignColumn_apply, PlaneType.column]

/-! ## Repeated creation -/

/-- C10 fails on the code: a second `create` on an initialised surface keeps the vertices of
the first call and appends the new ones. After `create` with one vertex and the
triangle `(0,0,0)`, a second `create` with one other vertex and the triangle
`(0,0,0)` leaves two vertices; vertex 0 still has the old position and normal, and
its adjacency list holds the three entries of the old triangle followed by the
three of the new one. -/
theorem second_create_keeps_old_vertices :
    ∃ (s1 s2 : Surface Int) (gl1 gl2 : GLState),
      (Surface.new Int 0 0 false).create [⟨1, 1, 1⟩] [⟨0, 0, 1⟩] [⟨0, 0, 0⟩] ⟨1, [], []⟩
        = some (s1, gl1) ∧
      s1.create [⟨2, 2, 2⟩] [⟨0, 1, 0⟩] [⟨0, 0, 0⟩] gl1 = some (s2, gl2) ∧
      s2.mVertices =
        [⟨⟨1, 1, 1⟩, ⟨0, 0, 1⟩, [0, 0, 0, 0, 0, 0]⟩, ⟨⟨2, 2, 2⟩, ⟨0, 1, 0⟩, []⟩] ∧
      s2.mVertices.length ≠ [(⟨2, 2, 2⟩ : Vec3 Int)].length :=
  ⟨_, _, _, _, rfl, rfl, rfl, by decide⟩


/-! ## Lifecycle of the buffer object -/

theorem create_returns {F : Type} (vertices normals : List (Vec3 F))
    (triangles : List (Vec3 Nat)) (s : Surface F) (gl : GLState)
    (hsize : vertices.length = normals.length)
    (hidx : ∀ t ∈ triangles, t.x < s.mVertices.length + vertices.length ∧
      t.y < s.mVertices.length + vertices.length ∧
      t.z < s.mVertices.length + vertices.length) :
    ∃ mV2 : List (SurfaceVertex F),
      s.create vertices normals triangles gl
        = some ({ s with
                    mIsInitialized := true
                    mVertices := mV2
                    mNrOfTriangles := triangles.length % UINT_RANGE },
                if s.mIsInitialized then s.freeAll gl else gl) := by
  obtain ⟨new, e1, l1, _⟩ := createVertexLoop_spec vertices normals
    (List.range vertices.length) s.mVertices
    (by intro i hi; rw [List.mem_range] at hi; omega)
  have l1' : new.length = vertices.length := by simpa using l1
  obtain ⟨mV2, e2, _⟩ := createTriangleLoop_spec triangles
    (List.range triangles.length) (s.mVertices ++ new)
    (by
      intro i hi
      rw [List.mem_range] at hi
      refine ⟨triangles[i], List.getElem?_eq_getElem hi, ?_⟩
      simpa [l1'] using hidx _ (List.getElem_mem hi))
  exact ⟨mV2, by simp [Surface.create, e1, e2]⟩

theorem create_result {F : Type} (vertices normals : List (Vec3 F)) (triangles : List (Vec3 Nat))
    (s s1 : Surface F) (gl gl1 : GLState)
    (h : s.create vertices normals triangles gl = some (s1, gl1)) :
    gl1 = (if s.mIsInitialized then s.freeAll gl else gl) ∧
    s1.mIsInitialized = true ∧ s1.mVBOHasData = s.mVBOHasData ∧ s1.mVBOID = s.mVBOID := by
  cases h1 : createVertexLoop vertices normals (List.range vertices.length) s.mVertices with
  | none => simp [Surface.create, h1] at h
  | some mV1 =>
    cases h2 : createTriangleLoop triangles (List.range triangles.length) mV1 with
    | none => simp [Surface.create, h1, h2] at h
    | some mV2 =>
      simp only [Surface.create, h1, h2, Option.some.injEq, Prod.mk.injEq] at h
      obtain ⟨rfl, rfl⟩ := h
      exact ⟨rfl, rfl, rfl, rfl⟩

theorem request_granted_cases {F : Type} (type : accessType) (env : GLEnv) (s s1 : Surface F)
    (gl gl1 : GLState) (token : VertexBufferObjectAccess)
    (h : s.getVertexBufferObjectAccess type env gl = (.ok token, s1, gl1)) :
    token = ⟨s1.mVBOID, .mVBODataIsBeingAccessed, .mSurfaceIsBeingWrittenTo⟩ ∧
    s1.mIsInitialized = true ∧ s1.mVBOHasData = true ∧
    ((s.mVBOHasData = true ∧ gl1 = gl ∧ s1.mVBOID = s.mVBOID) ∨
      (s.mVBOHasData = false ∧ s1.mVBOID = gl.nextBuffer ∧
        gl1 = glBufferData gl.nextBuffer (vboByteSize s.mNrOfTriangles) (glGenBuffers gl).2)) := by
  unfold Surface.getVertexBufferObjectAccess at h
  simp only [Surface.isAnyDataBeingAccessed] at h
  split_ifs at h <;> simp at h <;> obtain ⟨rfl, rfl, rfl⟩ := h <;> simp_all [glGenBuffers]

theorem request_refused_cases {F : Type} (type : accessType) (env : GLEnv) (s s1 : Surface F)
    (gl gl1 : GLState) (e : Exception)
    (h : s.getVertexBufferObjectAccess type env gl = (.error e, s1, gl1)) :
    gl1 = gl ∧ s1.mIsInitialized = s.mIsInitialized ∧ s1.mVBOHasData = s.mVBOHasData ∧
    s1.mVBOID = s.mVBOID ∧ s1.mVBODataIsUpToDate = s.mVBODataIsUpToDate ∧
    s1.mVBODataIsBeingAccessed = s.mVBODataIsBeingAccessed ∧
    (s1.mSurfaceIsBeingWrittenTo = s.mSurfaceIsBeingWrittenTo ∨
      (type = accessType.ACCESS_READ_WRITE ∧
        (e = .errorSettingGLContext ∨ e = .glewInitError))) := by
  unfold Surface.getVertexBufferObjectAccess at h
  simp only [Surface.isAnyDataBeingAccessed] at h
  split_ifs at h <;> simp at h <;> obtain ⟨rfl, rfl, rfl⟩ := h <;> simp_all

theorem freeAll_buffers {F : Type} (gl0 : GLState) (w : SurfaceWorld F) (hw : w.OwnsAtMost gl0)
    (init : Bool) :
    ∀ b ∈ (if init then w.surface.freeAll w.gl else w.gl).buffers,
      b ∈ gl0.buffers ∨ (w.surface.mVBOHasData = true ∧ b.1 = w.surface.mVBOID) := by
  intro b hb
  cases init with
  | false => exact hw.2 b (by simpa using hb)
  | true =>
    by_cases hd : w.surface.mVBOHasData = true
    · simp only [Surface.freeAll, hd, if_true, glDeleteBuffers, List.mem_filter] at hb
      rcases hw.2 b hb.1 with h | ⟨_, h⟩
      · exact Or.inl h
      · simp [h] at hb
    · exact hw.2 b (by simpa [Surface.freeAll, hd] using hb)

theorem step_ownsAtMost {F : Type} (gl0 : GLState) (w w1 : SurfaceWorld F) (ev : SurfaceEvent F)
    (hw : w.OwnsAtMost gl0) (hstep : w.step ev = some w1) : w1.OwnsAtMost gl0 := by
  cases ev with
  | create vertices normals triangles =>
    simp only [SurfaceWorld.step] at hstep
    cases hc : w.surface.create vertices normals triangles w.gl with
    | none => simp [hc] at hstep
    | some p =>
      obtain ⟨s, gl⟩ := p
      simp only [hc, Option.some.injEq] at hstep
      obtain ⟨h1, h2, h3, h4⟩ := create_result _ _ _ _ _ _ _ hc
      subst hstep
      refine ⟨fun _ => h2, fun b hb => ?_⟩
      simp only at hb
      rw [h1] at hb
      simpa [h3, h4] using freeAll_buffers gl0 w hw _ b hb
  | createCount n =>
    simp only [SurfaceWorld.step, Surface.createCount, Option.some.injEq] at hstep
    subst hstep
    exact ⟨fun _ => rfl, fun b hb => freeAll_buffers gl0 w hw _ b hb⟩
  | request type env =>
    simp only [SurfaceWorld.step] at hstep
    rcases hr : w.surface.getVertexBufferObjectAccess type env w.gl with ⟨res, s, gl⟩
    cases res with
    | error e =>
      simp only [hr, Option.some.injEq] at hstep
      obtain ⟨h1, h2, h3, h4, _⟩ := request_refused_cases _ _ _ _ _ _ _ hr
      subst hstep
      subst h1
      exact ⟨fun h => by simpa [h2] using hw.1 (by simpa [h3] using h),
        fun b hb => by simpa [h3, h4] using hw.2 b hb⟩
    | ok token =>
      simp only [hr, Option.some.injEq] at hstep
      obtain ⟨_, h2, h3, h4⟩ := request_granted_cases _ _ _ _ _ _ _ hr
      subst hstep
      refine ⟨fun _ => h2, fun b hb => ?_⟩
      simp only at hb
      rcases h4 with ⟨hd, hg, hid⟩ | ⟨hd, hid, hg⟩
      · subst hg
        rcases hw.2 b hb with h | ⟨_, h⟩
        · exact Or.inl h
        · exact Or.inr ⟨h3, by simpa [hid] using h⟩
      · subst hg
        simp only [glBufferData, glGenBuffers, List.mem_map, List.mem_append,
          List.mem_singleton] at hb
        obtain ⟨a, ha, rfl⟩ := hb
        by_cases hn : a.1 = w.gl.nextBuffer
        · exact Or.inr ⟨h3, by simp [hn, hid]⟩
        · rcases ha with ha | rfl
          · rcases hw.2 a ha with h | ⟨h, _⟩
            · exact Or.inl (by simpa [hn] using h)
            · simp [hd] at h
          · simp at hn
  | release k =>
    simp only [SurfaceWorld.step] at hstep
    cases hk : w.outstanding[k]? with
    | none => simp [hk] at hstep
    | some p =>
      simp only [hk, Option.some.injEq] at hstep
      subst hstep
      have hf : (p.2.release w.surface).mVBOHasData = w.surface.mVBOHasData ∧
          (p.2.release w.surface).mIsInitialized = w.surface.mIsInitialized ∧
          (p.2.release w.surface).mVBOID = w.surface.mVBOID := by
        simp only [VertexBufferObjectAccess.release]
        cases p.2.mAccessFlag <;> cases p.2.mAccessFlag2 <;> simp [Surface.clearFlag]
      obtain ⟨f1, f2, f3⟩ := hf
      exact ⟨fun h => by simpa [f2] using hw.1 (by simpa [f1] using h),
        fun b hb => by simpa [f1, f3] using hw.2 b hb⟩

theorem run_ownsAtMost {F : Type} (gl0 : GLState) :
    ∀ (evs : List (SurfaceEvent F)) (w w1 : SurfaceWorld F), w.OwnsAtMost gl0 →
      w.run evs = some w1 → w1.OwnsAtMost gl0 := by
  intro evs
  induction evs with
  | nil =>
    intro w w1 hw hrun
    simp only [SurfaceWorld.run, Option.some.injEq] at hrun
    exact hrun ▸ hw
  | cons ev rest ih =>
    intro w w1 hw hrun
    simp only [SurfaceWorld.run] at hrun
    cases hs : w.step ev with
    | none => simp [hs] at hrun
    | some w2 =>
      simp only [hs] at hrun
      exact ih w2 w1 (step_ownsAtMost gl0 w w2 ev hw hs) hrun

theorem initial_ownsAtMost {F : Type} (nrOfTriangles vboID : Nat) (upToDate : Bool)
    (gl0 : GLState) : (SurfaceWorld.initial F nrOfTriangles vboID upToDate gl0).OwnsAtMost gl0 :=
  ⟨fun h => by simp [SurfaceWorld.initial, Surface.new] at h, fun b hb => Or.inl hb⟩

/-- C11. On a surface reached from construction whose buffer object has been allocated
(`mVBOHasData` is set, which a granted request does), either `create` overload
returns, has passed `mVBOID` to `glDeleteBuffers`, and leaves allocated only buffer
objects that were allocated before the surface was constructed, none of them with
the name `mVBOID`. -/
theorem recreate_releases_buffer {F : Type} (nrOfTriangles vboID : Nat) (upToDate : Bool)
    (gl0 : GLState) (evs : List (SurfaceEvent F)) (w : SurfaceWorld F)
    (hrun : (SurfaceWorld.initial F nrOfTriangles vboID upToDate gl0).run evs = some w)
    (hdata : w.surface.mVBOHasData = true)
    (vertices normals : List (Vec3 F)) (triangles : List (Vec3 Nat)) (n : Nat)
    (hsize : vertices.length = normals.length)
    (hidx : ∀ t ∈ triangles,
      t.x < vertices.length ∧ t.y < vertices.length ∧ t.z < vertices.length) :
    (∃ (s1 : Surface F) (gl1 : GLState),
      w.surface.create vertices normals triangles w.gl = some (s1, gl1) ∧
      gl1.deleted = w.gl.deleted ++ [w.surface.mVBOID] ∧
      ∀ b ∈ gl1.buffers, b.1 ≠ w.surface.mVBOID ∧ b ∈ gl0.buffers) ∧
    ((w.surface.createCount n w.gl).2.deleted = w.gl.deleted ++ [w.surface.mVBOID] ∧
      ∀ b ∈ (w.surface.createCount n w.gl).2.buffers,
        b.1 ≠ w.surface.mVBOID ∧ b ∈ gl0.buffers) := by
  have hown := run_ownsAtMost gl0 evs _ w
    (initial_ownsAtMost nrOfTriangles vboID upToDate gl0) hrun
  have hinit : w.surface.mIsInitialized = true := hown.1 hdata
  have hbuf : ∀ b ∈ (glDeleteBuffers w.surface.mVBOID w.gl).buffers,
      b.1 ≠ w.surface.mVBOID ∧ b ∈ gl0.buffers := by
    intro b hb
    simp only [glDeleteBuffers, List.mem_filter, decide_eq_true_eq] at hb
    refine ⟨hb.2, ?_⟩
    rcases hown.2 b hb.1 with h | ⟨_, h⟩
    · exact h
    · exact absurd h hb.2
  constructor
  · obtain ⟨mV2, hc⟩ := create_returns vertices normals triangles w.surface w.gl hsize
      (by intro t ht; have := hidx t ht; omega)
    refine ⟨_, _, hc, ?_, ?_⟩
    · simp [hinit, Surface.freeAll, hdata, glDeleteBuffers]
    · simpa [hinit, Surface.freeAll, hdata] using hbuf
  · refine ⟨by simp [Surface.createCount, hinit, Surface.freeAll, hdata, glDeleteBuffers], ?_⟩
    simpa [Surface.createCount, hinit, Surface.freeAll, hdata] using hbuf

/-- Instance of `recreate_releases_buffer`: a surface created for one triangle whose buffer
object was allocated by a granted read request. -/
theorem recreate_releases_buffer_witness :
    ∃ w : SurfaceWorld Int,
      (SurfaceWorld.initial Int 0 0 false ⟨1, [], []⟩).run
        [.createCount 1, .request .ACCESS_READ ⟨true, true, true⟩] = some w ∧
      w.surface.mVBOHasData = true ∧
      (∃ (s1 : Surface Int) (gl1 : GLState),
        w.surface.create [⟨0, 0, 0⟩] [⟨0, 0, 1⟩] [⟨0, 0, 0⟩] w.gl = some (s1, gl1) ∧
        gl1.deleted = w.gl.deleted ++ [w.surface.mVBOID] ∧
        ∀ b ∈ gl1.buffers, b.1 ≠ w.surface.mVBOID ∧ b ∈ ([] : List (Nat × Nat))) ∧
      ((w.surface.createCount 3 w.gl).2.deleted = w.gl.deleted ++ [w.surface.mVBOID] ∧
        ∀ b ∈ (w.surface.createCount 3 w.gl).2.buffers,
          b.1 ≠ w.surface.mVBOID ∧ b ∈ ([] : List (Nat × Nat))) := by
  refine ⟨_, rfl, rfl, ?_⟩
  exact recreate_releases_buffer 0 0 false ⟨1, [], []⟩
    [.createCount 1, .request .ACCESS_READ ⟨true, true, true⟩] _ rfl rfl
    [⟨0, 0, 0⟩] [⟨0, 0, 1⟩] [⟨0, 0, 0⟩] 3 rfl (by decide)

/-! ## Failed and read-only requests -/

/-- C12 fails on the code: on a surface created for one triangle with no buffer object yet,
a read-write request in which `glewInit` fails throws "GLEW init error" after
`mSurfaceIsBeingWrittenTo` was set, so the flag is false before the call and true
after it; the next read request is then refused as if a write were in progress. -/
theorem failed_request_leaves_written_flag :
    ((Surface.new Int 0 0 false).createCount 1 ⟨1, [], []⟩).1.mSurfaceIsBeingWrittenTo = false ∧
    ((Surface.new Int 0 0 false).createCount 1 ⟨1, [], []⟩).1.getVertexBufferObjectAccess
        .ACCESS_READ_WRITE ⟨true, true, false⟩ ⟨1, [], []⟩
      = (.error .glewInitError,
          { (Surface.new Int 0 0 false).createCount 1 ⟨1, [], []⟩ |>.1 with
              mSurfaceIsBeingWrittenTo := true },
          ⟨1, [], []⟩) ∧
    ({ (Surface.new Int 0 0 false).createCount 1 ⟨1, [], []⟩ |>.1 with
          mSurfaceIsBeingWrittenTo := true }).getVertexBufferObjectAccess
        .ACCESS_READ ⟨true, true, true⟩ ⟨1, [], []⟩
      = (.error .alreadyBeingWrittenTo,
          { (Surface.new Int 0 0 false).createCount 1 ⟨1, [], []⟩ |>.1 with
              mSurfaceIsBeingWrittenTo := true },
          ⟨1, [], []⟩) :=
  ⟨rfl, rfl, rfl⟩

/-- C13 fails on the code: for 238609295 triangles the product `mNrOfTriangles*18` is
4294967310, which wraps to 14 in `unsigned int`, so the first granted request gives
the buffer object a data store of 56 bytes instead of 17179869240. -/
theorem buffer_size_wraps :
    (((Surface.new Int 0 0 false).createCount 238609295 ⟨1, [], []⟩).1.getVertexBufferObjectAccess
        .ACCESS_READ ⟨true, true, true⟩ ⟨1, [], []⟩).2.2.buffers = [(1, 56)] ∧
    vboByteSize 238609295 = 56 ∧
    238609295 < UINT_RANGE ∧
    238609295 * 18 * 4 = 17179869240 := by
  refine ⟨?_, ?_, ?_, ?_⟩
  · decide
  · decide
  · decide
  · norm_num

theorem vboByteSize_exact (n : Nat) (h : n * 18 < UINT_RANGE) : vboByteSize n = n * 18 * 4 := by
  unfold vboByteSize
  rw [Nat.mod_eq_of_lt h]

/-- C14. On an initialised surface with `mSurfaceIsBeingWrittenTo` false, when the OpenGL
context can be made current and `glewInit` succeeds, a read request is granted
whatever the value of `mVBODataIsBeingAccessed`; afterwards
`mSurfaceIsBeingWrittenTo` is still false and `mVBODataIsBeingAccessed` is set, and
the token carries `mVBOID` and points at these two flags. -/
theorem read_request_granted {F : Type} (s : Surface F) (env : GLEnv) (gl : GLState)
    (hinit : s.mIsInitialized = true) (hwritten : s.mSurfaceIsBeingWrittenTo = false)
    (hctx : env.hasCurrentDrawable = true ∨ env.makeCurrentSucceeds = true)
    (hglew : env.glewInitOk = true) :
    ∃ (s1 : Surface F) (gl1 : GLState),
      s.getVertexBufferObjectAccess .ACCESS_READ env gl
        = (.ok ⟨s1.mVBOID, .mVBODataIsBeingAccessed, .mSurfaceIsBeingWrittenTo⟩, s1, gl1) ∧
      s1.mSurfaceIsBeingWrittenTo = false ∧ s1.mVBODataIsBeingAccessed = true ∧
      s1.mVBOHasData = true ∧
      (s.mVBOHasData = true → s1.mVBOID = s.mVBOID ∧ gl1 = gl) := by
  have hc : (!env.hasCurrentDrawable && !env.makeCurrentSucceeds) = false := by
    rcases hctx with h | h <;> simp [h]
  by_cases hd : s.mVBOHasData = true
  · refine ⟨{ s with mVBODataIsBeingAccessed := true }, gl, ?_, hwritten, rfl, hd,
      fun _ => ⟨rfl, rfl⟩⟩
    simp [Surface.getVertexBufferObjectAccess, hinit, hwritten, hd]
  · have hd' : s.mVBOHasData = false := by simpa using hd
    refine ⟨{ s with
                mVBOID := gl.nextBuffer
                mVBOHasData := true
                mVBODataIsUpToDate := true
                mVBODataIsBeingAccessed := true },
      glBufferData gl.nextBuffer (vboByteSize s.mNrOfTriangles) (glGenBuffers gl).2,
      ?_, hwritten, rfl, rfl, fun h => absurd h hd⟩
    simp [Surface.getVertexBufferObjectAccess, hinit, hwritten, hd', hc, hglew, glGenBuffers]

/-- Instance of `read_request_granted`: a second read request while a first read token is
outstanding. -/
theorem read_request_granted_witness :
    ∃ w : SurfaceWorld Int,
      (SurfaceWorld.initial Int 0 0 false ⟨1, [], []⟩).run
        [.createCount 1, .request .ACCESS_READ ⟨true, true, true⟩] = some w ∧
      w.surface.mVBODataIsBeingAccessed = true ∧
      ∃ (s1 : Surface Int) (gl1 : GLState),
        w.surface.getVertexBufferObjectAccess .ACCESS_READ ⟨false, true, true⟩ w.gl
          = (.ok ⟨s1.mVBOID, .mVBODataIsBeingAccessed, .mSurfaceIsBeingWrittenTo⟩, s1, gl1) ∧
        s1.mSurfaceIsBeingWrittenTo = false ∧ s1.mVBODataIsBeingAccessed = true ∧
        s1.mVBOHasData = true ∧
        (w.surface.mVBOHasData = true → s1.mVBOID = w.surface.mVBOID ∧ gl1 = w.gl) := by
  refine ⟨_, rfl, rfl, ?_⟩
  exact read_request_granted _ ⟨false, true, true⟩ _ rfl rfl (Or.inr rfl) rfl

/-- C15 fails on the code: `freeAll` deletes the buffer object but leaves `mVBOHasData` set
and `mVBOID` unchanged. After `create`, a granted read request (buffer 1 is
allocated), its release and a second `create` (buffer 1 is deleted), the next
granted request returns a token with the name 1 while no buffer object is allocated;
the destructor, like a third `create`, then passes the name 1 to `glDeleteBuffers`
a second time. -/
theorem token_names_deleted_buffer :
    ∃ w : SurfaceWorld Int,
      (SurfaceWorld.initial Int 0 0 false ⟨1, [], []⟩).run
        [.createCount 1,
         .request .ACCESS_READ ⟨true, true, true⟩,
         .release 0,
         .createCount 1,
         .request .ACCESS_READ ⟨true, true, true⟩] = some w ∧
      w.outstanding =
        [(.ACCESS_READ, ⟨1, .mVBODataIsBeingAccessed, .mSurfaceIsBeingWrittenTo⟩)] ∧
      w.gl.buffers = [] ∧
      w.gl.deleted = [1] ∧
      (w.surface.destroy w.gl).deleted = [1, 1] ∧
      (w.surface.createCount 1 w.gl).2.deleted = [1, 1] :=
  ⟨_, rfl, rfl, rfl, rfl, rfl, rfl⟩

/-! ## The stored slice index -/

theorem usubOne_lt (e : Nat) (h : 1 ≤ e) : usubOne e < e := by
  unfold usubOne UINT_RANGE
  omega

theorem resolveSliceNr_lt (n : Int) (plane : PlaneType) (img : Image) (k : Nat)
    (h : resolveSliceNr n plane img = .ok k) (hE : 1 ≤ img.extent plane) :
    k < img.extent plane := by
  unfold resolveSliceNr at h
  have key : ∀ e : Nat, 1 ≤ e → (if toUInt32 n ≥ e then usubOne e else toUInt32 n) < e := by
    intro e he
    by_cases hc : toUInt32 n ≥ e
    · rw [if_pos hc]
      exact usubOne_lt e he
    · rw [if_neg hc]
      omega
  by_cases h1 : n = -1
  · rw [if_pos h1] at h
    cases plane <;> simp only [Except.ok.injEq, Image.extent] at h hE ⊢ <;> omega
  · rw [if_neg h1] at h
    by_cases h0 : n ≥ 0
    · rw [if_pos h0] at h
      cases plane <;> simp only [Except.ok.injEq, Image.extent] at h hE ⊢ <;>
        · rw [← h]
          exact key _ hE
    · rw [if_neg h0] at h
      cases h

/-- C16. When `execute` returns normally on an image whose extent `E` along the slice axis is
at least 1, the slice index passed to the kernel is below `E`. -/
theorem resolved_slice_in_range {F : Type} [DecidableEq F] (ops : FloatOps F) (img : Image)
    (r r1 : SliceRenderer F) (d d1 : Device F)
    (h : r.execute ops img d = (.ok (), r1, d1))
    (hE : 1 ≤ img.extent r.mSlicePlane) :
    ∃ args : KernelArgs F,
      d1.dispatched = d.dispatched ++ [args] ∧
      0 ≤ args.sliceNr ∧ args.sliceNr < img.extent r.mSlicePlane := by
  obtain ⟨h3, k, hk⟩ := execute_ok_inv ops img r r1 d d1 h
  obtain ⟨r1', d1', args, he, hd, hs, _⟩ := execute_of_resolved ops img r d k h3 hk
  rw [h] at he
  simp only [Prod.mk.injEq, true_and] at he
  obtain ⟨rfl, rfl⟩ := he
  exact ⟨args, hd, Nat.zero_le _, by rw [hs]; exact resolveSliceNr_lt _ _ _ _ hk hE⟩

/-- Instance of `resolved_slice_in_range`: depth 10 on axis Z with the stored index 15. -/
theorem resolved_slice_in_range_witness :
    ∃ (r1 : SliceRenderer Int) (d1 : Device Int) (args : KernelArgs Int),
      (freshRenderer.setSliceToRender 15).execute intOps ⟨3, 4, 5, 10, .TYPE_UINT8⟩ freshDevice
        = (.ok (), r1, d1) ∧
      d1.dispatched = freshDevice.dispatched ++ [args] ∧
      0 ≤ args.sliceNr ∧ args.sliceNr < 10 := by
  obtain ⟨r1, d1, h⟩ : ∃ (r1 : SliceRenderer Int) (d1 : Device Int),
      (freshRenderer.setSliceToRender 15).execute intOps ⟨3, 4, 5, 10, .TYPE_UINT8⟩ freshDevice
        = (.ok (), r1, d1) := ⟨_, _, rfl⟩
  obtain ⟨args, h1, h2, h3⟩ := resolved_slice_in_range intOps ⟨3, 4, 5, 10, .TYPE_UINT8⟩
    (freshRenderer.setSliceToRender 15) r1 freshDevice d1 h (by decide)
  exact ⟨r1, d1, args, h, h1, h2, h3⟩

theorem toInt32_of_lt (k : Nat) (h : k < 2 ^ 31) : toInt32 k = (k : Int) := by
  unfold toInt32 UINT_RANGE
  have hm : k % 2 ^ 32 = k := Nat.mod_eq_of_lt (by omega)
  rw [hm, if_pos h]

theorem resolveSliceNr_stable (n : Int) (plane : PlaneType) (img : Image) (k : Nat)
    (h : resolveSliceNr n plane img = .ok k) (hE : 1 ≤ img.extent plane)
    (hrange : img.extent plane < UINT_RANGE) (hhi : n < 2 ^ 31) :
    k < 2 ^ 31 ∧ resolveSliceNr (k : Int) plane img = .ok k := by
  have hlt := resolveSliceNr_lt n plane img k h hE
  have hlo : -1 ≤ n := by
    by_contra hc
    have h1 : ¬ n = -1 := by omega
    have h2 : ¬ n ≥ 0 := by omega
    simp [resolveSliceNr, h1, h2] at h
  have hk := resolveSliceNr_spec n plane img hlo hhi
  rw [h] at hk
  simp only [Except.ok.injEq] at hk
  have hk31 : k < 2 ^ 31 := by
    unfold UINT_RANGE at hrange
    by_cases h1 : n = -1
    · rw [if_pos h1] at hk
      omega
    · rw [if_neg h1] at hk
      by_cases h2 : n < (img.extent plane : Int)
      · rw [if_pos h2] at hk
        omega
      · omega
  refine ⟨hk31, ?_⟩
  rw [resolveSliceNr_spec (k : Int) plane img (by omega) (by omega)]
  have h1 : ¬ ((k : Int) = -1) := by omega
  have h2 : (k : Int) < (img.extent plane : Int) := by omega
  rw [if_neg h1, if_pos h2, Int.toNat_ofNat]

/-- C17, as stated, fails on a volume of depth 0 on axis Z: the first `execute` of a fresh
renderer passes the index 0 to the kernel and stores 0; the second `execute`, with
no setter call in between, passes 4294967295 and stores -1. -/
theorem empty_extent_changes_slice :
    ∃ (r1 r2 : SliceRenderer Int) (d1 d2 : Device Int),
      freshRenderer.execute intOps ⟨3, 4, 5, 0, .TYPE_UINT8⟩ freshDevice = (.ok (), r1, d1) ∧
      r1.execute intOps ⟨3, 4, 5, 0, .TYPE_UINT8⟩ d1 = (.ok (), r2, d2) ∧
      d2.dispatched.map (fun a => a.sliceNr) = [0, 4294967295] ∧
      r1.mSliceNr = 0 ∧ r2.mSliceNr = -1 :=
  ⟨_, _, _, _, rfl, rfl, rfl, rfl, rfl⟩

/-- C17, amended. When `execute` returns normally on an image whose extent along the slice
axis is at least 1, the stored `mSliceNr` equals the slice index passed to the kernel,
the corner matrix of `getBoundingBox` carries that index in the column of the slice
axis, and a second `execute` on the same image with no setter call in between
returns normally with the same slice index, plane number and output extents. -/
theorem execute_stores_resolved_slice {F : Type} [DecidableEq F] (ops : FloatOps F)
    (img : Image) (r r1 : SliceRenderer F) (d d1 : Device F)
    (h : r.execute ops img d = (.ok (), r1, d1))
    (hE : 1 ≤ img.extent r.mSlicePlane) (hrange : img.InRange) (hhi : r.mSliceNr < 2 ^ 31) :
    ∃ args1 : KernelArgs F,
      d1.dispatched = d.dispatched ++ [args1] ∧
      r1.mSliceNr = (args1.sliceNr : Int) ∧
      (∀ (corners : Corners F) (i : Fin 8),
        r1.shrinkCorners ops corners i r1.mSlicePlane.column
          = ops.ofInt (args1.sliceNr : Int)) ∧
      ∃ (r2 : SliceRenderer F) (d2 : Device F) (args2 : KernelArgs F),
        r1.execute ops img d1 = (.ok (), r2, d2) ∧
        d2.dispatched = d1.dispatched ++ [args2] ∧
        args2.sliceNr = args1.sliceNr ∧ args2.slicePlaneNr = args1.slicePlaneNr ∧
        r2.mWidth = r1.mWidth ∧ r2.mHeight = r1.mHeight ∧ r2.mSliceNr = r1.mSliceNr := by
  obtain ⟨h3, k, hk⟩ := execute_ok_inv ops img r r1 d d1 h
  obtain ⟨r1', d1', args1, he, hd, hs, hp, hw, hh, _, _, hsn, hpl⟩ :=
    execute_of_resolved ops img r d k h3 hk
  rw [h] at he
  simp only [Prod.mk.injEq, true_and] at he
  obtain ⟨rfl, rfl⟩ := he
  have hext : img.extent r.mSlicePlane < UINT_RANGE := by
    obtain ⟨a, b, c⟩ := hrange
    cases r.mSlicePlane <;> simpa [Image.extent]
  obtain ⟨hk31, hstab⟩ := resolveSliceNr_stable _ _ _ _ hk hE hext hhi
  have hstored : r1.mSliceNr = (k : Int) := by rw [hsn, toInt32_of_lt k hk31]
  have hk1 : resolveSliceNr r1.mSliceNr r1.mSlicePlane img = .ok k := by
    rw [hstored, hpl]
    exact hstab
  obtain ⟨r2, d2, args2, he2, hd2, hs2, hp2, hw2, hh2, _, _, hsn2, _⟩ :=
    execute_of_resolved ops img r1 d1 k h3 hk1
  refine ⟨args1, hd, by rw [hstored, hs], ?_, r2, d2, args2, he2, hd2, by rw [hs2, hs],
    by rw [hp2, hp, hpl], by rw [hw2, hw, hpl], by rw [hh2, hh, hpl], by rw [hsn2, hsn]⟩
  intro corners i
  rw [hs, ← hstored]
  unfold SliceRenderer.shrinkCorners
  cases r1.mSlicePlane <;> simp only [assignColumn_apply, PlaneType.column, if_true]

/-- Instance of `execute_stores_resolved_slice`: a fresh renderer on a volume of depth 10 on
axis Z. -/
theorem execute_stores_resolved_slice_witness :
    ∃ (r1 : SliceRenderer Int) (d1 : Device Int) (args1 : KernelArgs Int),
      freshRenderer.execute intOps ⟨3, 4, 5, 10, .TYPE_UINT8⟩ freshDevice = (.ok (), r1, d1) ∧
      d1.dispatched = freshDevice.dispatched ++ [args1] ∧
      r1.mSliceNr = (args1.sliceNr : Int) ∧
      (∀ (corners : Corners Int) (i : Fin 8),
        r1.shrinkCorners intOps corners i r1.mSlicePlane.column
          = intOps.ofInt (args1.sliceNr : Int)) ∧
      ∃ (r2 : SliceRenderer Int) (d2 : Device Int) (args2 : KernelArgs Int),
        r1.execute intOps ⟨3, 4, 5, 10, .TYPE_UINT8⟩ d1 = (.ok (), r2, d2) ∧
        d2.dispatched = d1.dispatched ++ [args2] ∧
        args2.sliceNr = args1.sliceNr ∧ args2.slicePlaneNr = args1.slicePlaneNr ∧
        r2.mWidth = r1.mWidth ∧ r2.mHeight = r1.mHeight ∧ r2.mSliceNr = r1.mSliceNr := by
  obtain ⟨r1, d1, h⟩ : ∃ (r1 : SliceRenderer Int) (d1 : Device Int),
      freshRenderer.execute intOps ⟨3, 4, 5, 10, .TYPE_UINT8⟩ freshDevice = (.ok (), r1, d1) :=
    ⟨_, _, rfl⟩
  obtain ⟨args1, h1, h2, h3, h4⟩ := execute_stores_resolved_slice intOps
    ⟨3, 4, 5, 10, .TYPE_UINT8⟩ freshRenderer r1 freshDevice d1 h (by decide)
    (by simp [Image.InRange, UINT_RANGE]) (by decide)
  exact ⟨r1, d1, args1, h, h1, h2, h3, h4⟩

end fast
